import Mathlib

/-!
Verification development for the Auto-Invoice ingestion and identity-resolution
pipeline.

This file is a shallow embedding of the core of the repository:

* `src/app/core/row_model.py`   — row status / file type enums, `RowModel`
* `src/app/core/app_state.py`   — scheduler state (`on_fs_event`,
  `start_next_batch_if_idle`, `mark_item_running`, `mark_item_done`),
  `enforce_display_name_group_status`, `add_row_from_phase1_result`
* `src/app/services/watcher.py` — the per-file slice of
  `FolderWatcher._scan_once`, `_sanitize_windows_filename_stem`,
  `_choose_collision_free_path`, `_attempt_rename`, and the per-item body of
  `Phase1Processor._run`

Modelling conventions:

* Python strings are Lean `String`s, but every Python string operation
  (`lower`, `casefold`, `strip`, `endswith`, lexicographic `<`, …) is
  implemented here over `String.data` (`List Char`) so that all definitions
  reduce inside the kernel.  The implementations cover the ASCII fragment,
  which is the fragment exercised by paths, fingerprints and document numbers.
* Paths are taken to be already-normalized absolute POSIX paths
  (`os.path.normcase` is the identity on POSIX and the worker/scheduler only
  ever traffic in normalized paths), so `normalize_path`/`_norm` is the
  identity in the model.
* Python `set`s are duplicate-free `List`s (insertion preserves the no-dup
  property), Python `dict`s are association lists with in-place update.
* Filesystem and OCR effects are passed in explicitly: each `os.stat`,
  `os.path.exists`, `os.replace` and `_sha256_hex` call made by the worker
  corresponds to one field of an environment record (`FsEnv`), so that racy
  outcomes (a file changing between two hashes of the same path) are
  expressible exactly where the source makes separate system calls.
-/

namespace AutoInvoice

/-! ## Python string primitives (ASCII fragment), over `List Char` -/

/-- Python `str.lower()` / `str.casefold()` on the ASCII fragment: map capital
letters to lowercase.  (For ASCII input Python's `casefold` and `lower`
agree.) -/
def asciiLowerChar (c : Char) : Char :=
  if 'A' ≤ c ∧ c ≤ 'Z' then Char.ofNat (c.toNat + 32) else c

/-- Python `str.lower()` / `str.casefold()` of a whole string. -/
def pyLower (s : String) : String :=
  String.mk (s.data.map asciiLowerChar)

/-- Whitespace stripped by Python's `str.strip()` (ASCII fragment). -/
def isPyWs (c : Char) : Bool :=
  c = ' ' ∨ c = '\t' ∨ c = '\n' ∨ c = '\r'

/-- Python `str.strip()`: drop leading and trailing whitespace. -/
def pyStrip (s : String) : String :=
  String.mk (((s.data.dropWhile isPyWs).reverse.dropWhile isPyWs).reverse)

/-- Does `l` start with `lead`?  (`str.startswith` on char lists.) -/
def leadsWith : List Char → List Char → Bool
  | [], _ => true
  | _ :: _, [] => false
  | a :: as, b :: bs => a = b && leadsWith as bs

/-- Python `s.endswith(suffix)`. -/
def pyEndsWith (s suf : String) : Bool :=
  leadsWith suf.data.reverse s.data.reverse

/-- Python `s[:-n]` for dropping a known-length trailing piece (used for `".pdf"`). -/
def pyDropRight (s : String) (n : Nat) : String :=
  String.mk (s.data.take (s.data.length - n))

/-- Python `s[:n]` (used for the first 12 fingerprint characters). -/
def pyTake (s : String) (n : Nat) : String :=
  String.mk (s.data.take n)

/-- Python string `<`: lexicographic comparison by code point. -/
def lexLt : List Char → List Char → Bool
  | [], [] => false
  | [], _ :: _ => true
  | _ :: _, [] => false
  | a :: as, b :: bs =>
    if a.toNat < b.toNat then true
    else if b.toNat < a.toNat then false
    else lexLt as bs

/-! ## Path helpers (`os.path` on POSIX, normalized absolute inputs) -/

/-- Python `normalize_path` (`app_state.py`) / `_norm` (`watcher.py`): `abspath`
followed by `normcase∘normpath`.  On POSIX, applied to an already-normalized
absolute path, this is the identity; the model works with such paths. -/
def normalizePath (p : String) : String := p

/-- Python `os.path.basename`: the part after the last `'/'`. -/
def basenameData : List Char → List Char → List Char
  | [], acc => acc.reverse
  | c :: cs, acc => if c = '/' then basenameData cs [] else basenameData cs (c :: acc)

/-- Python `os.path.basename` on strings. -/
def pyBasename (p : String) : String :=
  String.mk (basenameData p.data [])

/-- Python `os.path.dirname`: everything before the last `'/'` (empty if none). -/
def pyDirname (p : String) : String :=
  match p.data.reverse.dropWhile (fun c => ¬ c = '/') with
  | [] => ""
  | _ :: rest => String.mk rest.reverse

/-- Python `os.path.join dir name` for a relative `name` (the only use here). -/
def joinPath (d n : String) : String :=
  if d = "" then n else d ++ "/" ++ n

/-- Python `_is_pdf`: the lowercased path ends in `".pdf"`. -/
def isPdfPath (p : String) : Bool :=
  pyEndsWith (pyLower p) ".pdf"

/-- Set-style insertion into a duplicate-free list (`set.add`). -/
def listInsert (x : String) (l : List String) : List String :=
  if x ∈ l then l else x :: l

/-! ## `core/row_model.py` -/

/-- Python `RowStatus` (row_model.py). -/
inductive RowStatus where
  | Ready
  | Review
  | Processed
deriving DecidableEq, Repr

/-- Python `FileType` (row_model.py). -/
inductive FileType where
  | TaxInvoice
  | Order
  | Proforma
  | Transfer
  | Credit
  | Unknown
deriving DecidableEq, Repr

/-- A ledger row.  `row_model.py` declares the dataclass fields `id` through
`source_path`; the attributes `display_name`, `fingerprint_sha256` and
`origin_seq` are *not* dataclass fields — they are created dynamically by
attribute assignment (`core/mutations.py`) and read via
`getattr(r, "display_name", …)` in the UI.  The embedding carries them as
ordinary fields so the functions that read them can be modelled; the list
`rowModelDataclassFields` below records which names the Python constructor
actually accepts. -/
structure RowModel where
  id : String
  file_name : String
  file_type : FileType
  date_str : String
  account_str : String
  total_str : String
  status : RowStatus
  checked : Bool
  checkbox_enabled : Bool
  source_path : String
  display_name : String
  fingerprint_sha256 : String
  origin_seq : Nat
deriving DecidableEq, Repr

/-- The dataclass fields declared by `RowModel` in `row_model.py` (lines
22–34): exactly these keyword arguments are accepted by `RowModel(...)`. -/
def rowModelDataclassFields : List String :=
  ["id", "file_name", "file_type", "date_str", "account_str", "total_str",
   "status", "checked", "checkbox_enabled", "source_path"]

/-- The keyword arguments passed to `RowModel(...)` by
`add_row_from_phase1_result` (app_state.py lines 247–263). -/
def addRowRowKwargNames : List String :=
  ["id", "file_name", "file_type", "date_str", "account_str", "total_str",
   "status", "checked", "checkbox_enabled", "source_path",
   "display_name", "fingerprint_sha256", "origin_seq"]

/-- A Python dataclass constructor accepts a call iff every keyword argument
names a declared field. -/
def ctorAccepts (kwargs fields : List String) : Bool :=
  kwargs.all (fun k => fields.contains k)

/-! ## `core/app_state.py`: scheduler data model -/

/-- Python `WorkStatus` literal type. -/
inductive WorkStatus where
  | pending
  | running
  | done
deriving DecidableEq, Repr

/-- Python `Phase1Kind` literal type. -/
inductive Phase1Kind where
  | processed
  | duplicate_skipped
deriving DecidableEq, Repr

/-- Python `Phase1Result` (app_state.py). -/
structure Phase1Result where
  batch_id : Nat
  original_path : String
  fingerprint_sha256 : String
  doc_no : String
  file_type : FileType
  renamed_path : String
  kind : Phase1Kind
deriving DecidableEq, Repr

/-- Python `ActiveBatch` (app_state.py). -/
structure ActiveBatch where
  batch_id : Nat
  snapshot_paths : List String
  total : Nat
  done_count : Nat
deriving DecidableEq, Repr

/-- Python `WorkItem` (app_state.py). -/
structure WorkItem where
  batch_id : Nat
  path : String
  index : Nat
  status : WorkStatus
deriving DecidableEq, Repr

/-- The scheduler-owned slice of `AppState` (app_state.py): watch/batch/work
queue state.  `known_paths` and `pending_paths` are Python sets, modelled as
duplicate-free lists. -/
structure SchedState where
  source_path : String
  known_paths : List String
  pending_paths : List String
  active_batch : Option ActiveBatch
  work_queue : List WorkItem
  next_batch_id : Nat
deriving DecidableEq, Repr

/-- Python `_quarantine_root`. -/
def quarantineRoot (st : SchedState) : String :=
  if st.source_path = "" then ""
  else normalizePath (joinPath st.source_path "quarantine")

/-- Python `_is_under_quarantine`. -/
def isUnderQuarantine (st : SchedState) (normPath : String) : Bool :=
  let q := quarantineRoot st
  if q = "" then false
  else if normPath = q then true
  else leadsWith (q ++ "/").data normPath.data

/-- Python `on_fs_event` (app_state.py lines 135–154): record a discovered stable
PDF path into pending work. -/
def on_fs_event (st : SchedState) (path : String) : SchedState :=
  if st.source_path = "" then st
  else
    let norm := normalizePath path
    if ¬ isPdfPath norm then st
    else if isUnderQuarantine st norm then st
    else if norm ∈ st.known_paths then st
    else { st with known_paths := listInsert norm st.known_paths,
                   pending_paths := listInsert norm st.pending_paths }

/-- Python `_batch_sort_key` (app_state.py): `(basename(p).lower(), p)`. -/
def batchSortKey (p : String) : List Char × List Char :=
  ((pyLower (pyBasename p)).data, p.data)

/-- Non-strict lexicographic comparison. -/
def lexLe (a b : List Char) : Bool :=
  lexLt a b || a = b

/-- The `≤` of Python tuple comparison on `_batch_sort_key` values
(lexicographic on the pair, code-point lexicographic on each string). -/
def batchLEb (p q : String) : Bool :=
  let kp := batchSortKey p
  let kq := batchSortKey q
  lexLt kp.1 kq.1 || (kp.1 = kq.1 && lexLe kp.2 kq.2)

/-- Insert into a sorted list (model of one step of Python's stable sort). -/
def insertSorted (le : String → String → Bool) (a : String) :
    List String → List String
  | [] => [a]
  | b :: bs => if le a b then a :: b :: bs else b :: insertSorted le a bs

/-- Python `sorted(paths, key=_batch_sort_key)`.  The sort key is injective (its
second component is the whole path), so every correct sort of a duplicate-free
set produces the same list; insertion sort is used as the model. -/
def pySortedBy (le : String → String → Bool) : List String → List String
  | [] => []
  | a :: as => insertSorted le a (pySortedBy le as)

/-- Python `start_next_batch_if_idle` (app_state.py lines 162–180): freeze a
deterministic snapshot of pending paths into an active batch.  Returns the
new state together with the created `WorkItem`s. -/
def start_next_batch_if_idle (st : SchedState) : SchedState × List WorkItem :=
  match st.active_batch with
  | some _ => (st, [])
  | none =>
    if st.pending_paths = [] then (st, [])
    else
      let snapshot := pySortedBy batchLEb st.pending_paths
      let pending1 := st.pending_paths.filter (fun p => ¬ p ∈ snapshot)
      let bid := st.next_batch_id
      let items := (snapshot.enum).map
        (fun e => WorkItem.mk bid e.2 e.1 WorkStatus.pending)
      ({ st with pending_paths := pending1,
                 next_batch_id := bid + 1,
                 active_batch := some (ActiveBatch.mk bid snapshot snapshot.length 0),
                 work_queue := items },
       items)

/-- The loop body of `mark_item_running`: set the first matching work item to
`running` and stop. -/
def setRunningFirst (bid : Nat) (norm : String) : List WorkItem → List WorkItem
  | [] => []
  | item :: rest =>
    if item.batch_id = bid ∧ item.path = norm then
      { item with status := WorkStatus.running } :: rest
    else item :: setRunningFirst bid norm rest

/-- Python `mark_item_running` (app_state.py lines 183–191). -/
def mark_item_running (st : SchedState) (bid : Nat) (path : String) : SchedState :=
  match st.active_batch with
  | none => st
  | some ab =>
    if ¬ ab.batch_id = bid then st
    else { st with work_queue := setRunningFirst bid (normalizePath path) st.work_queue }

/-- The loop body of `mark_item_done`: set the first matching work item to
`done`, report whether the status actually changed, and stop at the first
match. -/
def markDoneFirst (bid : Nat) (norm : String) :
    List WorkItem → List WorkItem × Bool
  | [] => ([], false)
  | item :: rest =>
    if item.batch_id = bid ∧ item.path = norm then
      if ¬ item.status = WorkStatus.done then
        ({ item with status := WorkStatus.done } :: rest, true)
      else (item :: rest, false)
    else
      let r := markDoneFirst bid norm rest
      (item :: r.1, r.2)

/-- Python `mark_item_done` (app_state.py lines 193–206). -/
def mark_item_done (st : SchedState) (bid : Nat) (path : String) : SchedState :=
  match st.active_batch with
  | none => st
  | some ab =>
    if ¬ ab.batch_id = bid then st
    else
      let norm := normalizePath path
      let r := markDoneFirst bid norm st.work_queue
      let ab1 := if r.2 then { ab with done_count := ab.done_count + 1 } else ab
      if ab1.total ≤ ab1.done_count then
        { st with active_batch := none, work_queue := [] }
      else
        { st with active_batch := some ab1, work_queue := r.1 }

/-! ## `core/app_state.py`: collision-group state machine -/

/-- The canonical (trimmed, casefolded) form of a display name:
`(display_name or "").strip().casefold()`. -/
def canonName (s : String) : String :=
  pyLower (pyStrip s)

/-- Membership test of the collision group for `canon`:
`(r.display_name or "").strip().casefold() == canon`.  Note that the source
compares against the *argument* `canon`, not its re-casefolded form. -/
def inGroup (canon : String) (r : RowModel) : Bool :=
  canonName r.display_name = canon

/-- The checkbox block shared by both branches of
`enforce_display_name_group_status`: after the status has been set, enable the
checkbox only for a `Ready` row of type TaxInvoice/Proforma, otherwise
disable it and clear the check mark. -/
def applyCheckboxRule (r : RowModel) : RowModel :=
  if r.status = RowStatus.Ready ∧
      (r.file_type = FileType.TaxInvoice ∨ r.file_type = FileType.Proforma) then
    { r with checkbox_enabled := true }
  else
    { r with checkbox_enabled := false, checked := false }

/-- Group-size ≥ 2 branch body: force `Review`, then the checkbox block. -/
def applyGroupMember (r : RowModel) : RowModel :=
  applyCheckboxRule { r with status := RowStatus.Review }

/-- Group-size = 1 branch body: base status from sentinel/type, then the
checkbox block. -/
def applySingleMember (r : RowModel) : RowModel :=
  if ¬ r.display_name = "!" ∧ ¬ r.file_type = FileType.Unknown then
    applyCheckboxRule { r with status := RowStatus.Ready }
  else
    applyCheckboxRule { r with status := RowStatus.Review }

/-- Python `enforce_display_name_group_status` (app_state.py lines 92–126), acting on
the `rows` component of the state (the only component it reads or writes). -/
def enforce_display_name_group_status (rows : List RowModel) (canon : String) :
    List RowModel :=
  let c := canonName canon
  if c = "" ∨ c = "!" then rows
  else
    let n := (rows.filter (inGroup canon)).length
    if 2 ≤ n then
      rows.map (fun r => if inGroup canon r then applyGroupMember r else r)
    else if n = 1 then
      rows.map (fun r => if inGroup canon r then applySingleMember r else r)
    else rows

/-! ## `core/app_state.py`: ledger mutation `add_row_from_phase1_result` -/

/-- The ledger-owned slice of `AppState` read and written by
`add_row_from_phase1_result`. -/
structure LedgerState where
  rows : List RowModel
  phase1_completed_paths : List String
  next_row_seq : Nat
  known_fingerprints : List String
deriving DecidableEq, Repr

/-- Python `f"{n:04d}"`: decimal digits of `n`, left-padded with zeros to width 4. -/
def natDigits (n : Nat) : List Char :=
  (Nat.toDigits 10 n)

/-- Python `f"p1_{origin_seq:04d}"`. -/
def rowIdOf (seq : Nat) : String :=
  let ds := natDigits seq
  "p1_" ++ String.mk (List.replicate (4 - ds.length) '0' ++ ds)

/-- Python `add_row_from_phase1_result` (app_state.py lines 209–267).  The result is
`Except`-valued because the Python function can raise: the `RowModel(...)`
call passes the keyword arguments `display_name`, `fingerprint_sha256` and
`origin_seq`, which the dataclass declared in `row_model.py` does not accept,
so CPython raises `TypeError` at that call.  The guard `ctorAccepts` models
the dataclass `__init__` keyword check. -/
def add_row_from_phase1_result (st : LedgerState) (res : Phase1Result) :
    Except String (LedgerState × Bool) :=
  let orig := normalizePath res.original_path
  if orig = "" then Except.ok (st, false)
  else if ¬ res.fingerprint_sha256 = "" ∧ res.fingerprint_sha256 ∈ st.known_fingerprints then
    Except.ok ({ st with phase1_completed_paths := listInsert orig st.phase1_completed_paths }, false)
  else if orig ∈ st.phase1_completed_paths then
    Except.ok (st, false)
  else
    let st1 := { st with phase1_completed_paths := listInsert orig st.phase1_completed_paths }
    let st2 :=
      if ¬ res.fingerprint_sha256 = "" then
        { st1 with known_fingerprints := listInsert res.fingerprint_sha256 st1.known_fingerprints }
      else st1
    if res.kind = Phase1Kind.duplicate_skipped then Except.ok (st2, false)
    else
      let originSeq := st2.next_row_seq
      let rowId := rowIdOf originSeq
      let st3 := { st2 with next_row_seq := st2.next_row_seq + 1 }
      let displayName := if ¬ res.doc_no = "" ∧ ¬ res.doc_no = "!" then pyStrip res.doc_no else "!"
      let fileName := if ¬ res.doc_no = "" ∧ ¬ res.doc_no = "!" then res.doc_no else "!"
      let fileType := res.file_type
      let status :=
        if ¬ displayName = "!" ∧ ¬ fileType = FileType.Unknown then RowStatus.Ready
        else RowStatus.Review
      let finalPath := if ¬ res.renamed_path = "" then normalizePath res.renamed_path else orig
      if ctorAccepts addRowRowKwargNames rowModelDataclassFields then
        let row : RowModel :=
          { id := rowId, file_name := fileName, file_type := fileType,
            date_str := "", account_str := "", total_str := "",
            status := status, checked := false, checkbox_enabled := false,
            source_path := finalPath, display_name := displayName,
            fingerprint_sha256 := res.fingerprint_sha256, origin_seq := originSeq }
        let st4 := { st3 with rows := st3.rows ++ [row] }
        let st5 :=
          if ¬ displayName = "!" then
            { st4 with rows := enforce_display_name_group_status st4.rows (pyLower displayName) }
          else st4
        Except.ok (st5, true)
      else
        Except.error "TypeError: RowModel.__init__ got an unexpected keyword argument"

/-! ## `services/watcher.py`: the per-file slice of `FolderWatcher._scan_once`

Claim C6 is about one tracked PDF over a sequence of scans.  The model below
is the body of the `for name in files` loop of `_scan_once`
(watcher.py lines 120–148) specialised to a single path that is present in
every scan: the record evolution of `self._seen[norm]` and the push to
`out_queue`.  One `ScanObs` is the outcome of the `os.stat` call of one scan
plus whether `put_nowait` would succeed on that scan. -/

/-- Python `_SeenFile` (watcher.py). -/
structure SeenFileRec where
  size : Nat
  mtime_ns : Int
  stable_ticks : Nat
  emitted : Bool
deriving DecidableEq, Repr

/-- One scan's observation of the file: its `os.stat` size/mtime and whether
the output queue has room (`put_nowait` succeeds). -/
structure ScanObs where
  size : Nat
  mtime_ns : Int
  queueOk : Bool
deriving DecidableEq, Repr

/-- One scan's handling of the tracked file (watcher.py lines 125–148):
returns the updated record and whether the path was pushed to the output
queue on this scan. -/
def scanStepEmit (required : Nat) (p1 : SeenFileRec) (o : ScanObs) :
    Option SeenFileRec × Bool :=
  if ¬ p1.emitted ∧ required ≤ p1.stable_ticks then
    if o.queueOk then (some { p1 with emitted := true }, true)
    else (some p1, false)
  else (some p1, false)

def scanStepFile (required : Nat) : Option SeenFileRec → ScanObs → Option SeenFileRec × Bool
  | none, o => (some (SeenFileRec.mk o.size o.mtime_ns 0 false), false)
  | some p, o =>
    scanStepEmit required
      (if p.size = o.size ∧ p.mtime_ns = o.mtime_ns then
        { p with stable_ticks := p.stable_ticks + 1 }
      else SeenFileRec.mk o.size o.mtime_ns 0 false) o

/-- Fold `scanStepFile` over a sequence of scans, collecting the per-scan
emission flags. -/
def scanRunFile (required : Nat) (s : Option SeenFileRec) :
    List ScanObs → Option SeenFileRec × List Bool
  | [] => (s, [])
  | o :: os =>
    let r := scanStepFile required s o
    let rest := scanRunFile required r.1 os
    (rest.1, r.2 :: rest.2)

/-! ## `services/watcher.py`: filename helpers -/

/-- The characters replaced by `_INVALID_WIN_CHARS_RE`. -/
def isInvalidWinChar (c : Char) : Bool :=
  c = '<' ∨ c = '>' ∨ c = ':' ∨ c = '"' ∨ c = '/' ∨ c = '\\' ∨ c = '|' ∨ c = '?' ∨ c = '*'

/-- Python `_sanitize_windows_filename_stem`: strip, replace invalid characters with
`'_'`, then strip trailing spaces and dots. -/
def sanitizeStem (stem : String) : String :=
  let s1 := (pyStrip stem).data
  let s2 := s1.map (fun c => if isInvalidWinChar c then '_' else c)
  String.mk (s2.reverse.dropWhile (fun c => c = ' ' ∨ c = '.')).reverse

/-- The candidate names tried by `_choose_collision_free_path`: index 0 is
`base ++ ext`, index `i ≥ 1` is `base ++ "__" ++ toString (i+1) ++ ext`
(the Python counter starts at 2). -/
def candName (base ext : String) : Nat → String
  | 0 => base ++ ext
  | Nat.succ i => base ++ "__" ++ String.mk (natDigits (i + 2)) ++ ext

/-- The search loop of `_choose_collision_free_path`: the first candidate
index whose full path does not exist.  `fs` is the set of existing paths seen
by the loop's `os.path.exists` calls; `fuel` bounds the unbounded Python
`while True` (the loop always terminates on a real filesystem, which has
finitely many files). -/
def findFreeIdx (fs : List String) (dir base ext : String) :
    Nat → Nat → Option Nat
  | 0, _ => none
  | Nat.succ fuel, k =>
    if joinPath dir (candName base ext k) ∈ fs then
      findFreeIdx fs dir base ext fuel (k + 1)
    else some k

/-- Python `_choose_collision_free_path` (watcher.py lines 234–246). -/
def chooseCollisionFreePath (fs : List String) (fuel : Nat)
    (dirPath baseStem ext : String) : Option String :=
  let base0 := sanitizeStem baseStem
  let base := if base0 = "" then "!" else base0
  (findFreeIdx fs dirPath base ext fuel 0).map
    (fun k => joinPath dirPath (candName base ext k))

/-- The outcome of one `_attempt_rename` call (watcher.py lines 249–256):
the returned path (`none` on failure), the `os.replace` moves performed, and
the `(target, succeeded)` record used by the proof log.  `ok` is the oracle
for whether the `os.replace` system call succeeds. -/
structure RenameOutcome where
  result : Option String
  moves : List (String × String)
  attempt : String × Bool
deriving DecidableEq, Repr

/-- Python `_attempt_rename src target`: if the (normalized) target equals the
source, succeed without touching the filesystem; otherwise `os.replace`. -/
def attemptRename (src target : String) (ok : Bool) : RenameOutcome :=
  if normalizePath target = src then RenameOutcome.mk (some src) [] (target, true)
  else if ok then RenameOutcome.mk (some (normalizePath target)) [(src, target)] (target, true)
  else RenameOutcome.mk none [] (target, false)

/-! ## `services/watcher.py`: `Phase1Processor` per-item processing -/

/-- The worker-owned tables: `_seen_fingerprints` (a set) and
`_canonical_path_by_fp` (a dict). -/
structure WorkerState where
  seen_fingerprints : List String
  canonical_path_by_fp : List (String × String)
deriving DecidableEq, Repr

/-- Python `dict.get`. -/
def lookupFp : List (String × String) → String → Option String
  | [], _ => none
  | kv :: rest, fp => if kv.1 = fp then some kv.2 else lookupFp rest fp

/-- Python `dict.__setitem__`: update in place, or append a new binding. -/
def setFp : List (String × String) → String → String → List (String × String)
  | [], fp, p => [(fp, p)]
  | kv :: rest, fp, p =>
    if kv.1 = fp then (kv.1, p) :: rest else kv :: setFp rest fp p

/-- The filesystem/OCR environment of one `Phase1Processor._run` iteration.
Each field is the outcome of one specific system call in the source (line
numbers from watcher.py); `none` for a hash means `_sha256_hex` raised.
Separate fields for repeated calls on the same path make racy filesystems
(content changing mid-processing) expressible. -/
structure FsEnv where
  existsOrig : Bool           -- os.path.exists(orig_norm), line 328
  hashOrig : Option String    -- _sha256_hex(orig_norm), line 332
  existsCanon1 : Bool         -- os.path.exists(canonical_norm), line 353
  hashOrig2 : Option String   -- _sha256_hex(orig_norm), line 364
  existsCanon2 : Bool         -- os.path.exists(canonical_norm), line 386
  hashCanon : Option String   -- _sha256_hex(canonical_norm), line 392
  quarantineOk : Bool         -- the whole quarantine try-block, lines 432-452
  quarantineTarget : String   -- collision-free destination chosen there
  parsedDocNo : String        -- _parse_phase1_from_pdf_page1(...).doc_no
  parsedType : FileType       -- _parse_phase1_from_pdf_page1(...).file_type
  fsPaths : List String       -- os.path.exists oracle inside _choose_collision_free_path
  chooseFuel : Nat            -- bound for the two collision-free searches
  renamePreferredOk : Bool    -- os.replace success for the preferred target
  renameFallbackOk : Bool     -- os.replace success for the fallback target
deriving DecidableEq, Repr

/-- Observable side effects of one iteration: filesystem moves
(`os.replace` calls, source/destination), `_attempt_rename` attempts, and
whether the external identity classifier
(`_parse_phase1_from_pdf_page1`) was invoked. -/
structure ProcLog where
  moves : List (String × String)
  renameAttempts : List (String × Bool)
  classified : Bool
deriving DecidableEq, Repr

/-- The empty log. -/
def emptyLog : ProcLog := ProcLog.mk [] [] false

/-- GUARD 1 of the duplicate branch (watcher.py lines 335–339): the
fingerprint, lowercased, is 64 hex characters. -/
def wellFormedFp (fp : String) : Bool :=
  let fpl := (pyLower fp).data
  fpl.length = 64 && fpl.all (fun c => c ∈ "0123456789abcdef".data)

/-- Python `canonical_norm` as computed at the top of the duplicate branch
(watcher.py lines 341–342): `_norm(canonical) if canonical else ""`. -/
def canonicalNormOf (ws : WorkerState) (fp : String) : String :=
  match lookupFp ws.canonical_path_by_fp fp with
  | none => ""
  | some c => if c = "" then "" else normalizePath c

/-- The five duplicate-safety guards (a)–(e) of the spec, measured on the
worker state and the per-call environment: (a) well-formed fingerprint;
(b) a canonical path is recorded and differs from the current path; (c) the
canonical path exists on disk at both stat calls; (d) re-hashing the
canonical path yields the fingerprint; (e) re-hashing the current path
yields the fingerprint. -/
def dupGuards (ws : WorkerState) (env : FsEnv) (orig fp : String) : Prop :=
  wellFormedFp fp = true ∧
  (¬ canonicalNormOf ws fp = "" ∧ ¬ orig = canonicalNormOf ws fp) ∧
  (env.existsCanon1 = true ∧ env.existsCanon2 = true) ∧
  env.hashCanon = some fp ∧
  env.hashOrig2 = some fp

/-- The `duplicate_skipped` result stored by every exit of the duplicate
branch: empty identity, no renamed path. -/
def dupSkippedResult (batchId : Nat) (orig fp : String) : Phase1Result :=
  Phase1Result.mk batchId orig fp "!" FileType.Unknown "" Phase1Kind.duplicate_skipped

/-- The duplicate branch of `Phase1Processor._run` (watcher.py lines
333–465), entered when `fp` is already in `_seen_fingerprints`.  The
`can_quarantine` flag and the interleaved self-healing updates of
`_canonical_path_by_fp` follow the source line by line. -/
def processDuplicate (ws : WorkerState) (env : FsEnv) (batchId : Nat)
    (orig fp : String) : WorkerState × ProcLog × Option Phase1Result :=
  let canQ0 := wellFormedFp fp
  let canonicalNorm := canonicalNormOf ws fp
  -- line 343: canonical file re-seen; never quarantine it
  let canQ1 := if ¬ canonicalNorm = "" ∧ orig = canonicalNorm then false else canQ0
  -- line 347: no canonical mapping for a seen fp; self-heal
  let canQ2 := if canonicalNorm = "" then false else canQ1
  let cmap1 :=
    if canonicalNorm = "" then setFp ws.canonical_path_by_fp fp orig
    else ws.canonical_path_by_fp
  -- line 353: canonical path is stale; self-heal
  let canQ3 := if ¬ canonicalNorm = "" ∧ env.existsCanon1 = false then false else canQ2
  let cmap2 :=
    if ¬ canonicalNorm = "" ∧ env.existsCanon1 = false then setFp cmap1 fp orig
    else cmap1
  match env.hashOrig2 with
  | none =>
    -- line 366: fingerprint computation failed; store and continue
    ({ ws with canonical_path_by_fp := cmap2 }, emptyLog,
      some (dupSkippedResult batchId orig fp))
  | some currentVerify =>
    let canQ4 := if ¬ currentVerify = fp then false else canQ3
    -- line 386: canonical missing/stale or re-seen; never quarantine
    let heal3 := canonicalNorm = "" ∨ env.existsCanon2 = false ∨ orig = canonicalNorm
    let canQ5 := if heal3 then false else canQ4
    let cmap3 := if heal3 then setFp cmap2 fp orig else cmap2
    match env.hashCanon with
    | none =>
      -- line 393: canonical fingerprint verification failed; store and continue
      ({ ws with canonical_path_by_fp := setFp cmap3 fp orig }, emptyLog,
        some (dupSkippedResult batchId orig fp))
    | some canonicalVerify =>
      let canQ6 := if ¬ canonicalVerify = fp then false else canQ5
      let cmap4 := if ¬ canonicalVerify = fp then setFp cmap3 fp orig else cmap3
      if canQ6 = false then
        ({ ws with canonical_path_by_fp := cmap4 }, emptyLog,
          some (dupSkippedResult batchId orig fp))
      else
        -- lines 432-452: move the duplicate into quarantine; a failure is
        -- non-fatal and leaves the file in place
        let log :=
          if env.quarantineOk then ProcLog.mk [(orig, env.quarantineTarget)] [] false
          else emptyLog
        ({ ws with canonical_path_by_fp := cmap4 }, log,
          some (dupSkippedResult batchId orig fp))

/-- The document-number post-processing of the first-seen branch
(watcher.py lines 469–479), before rename targeting:
default to `"!"`, drop a trailing `".pdf"`, and blank out numbers whose
sanitized stem is empty. -/
def phase1DocNo (env : FsEnv) : String :=
  let d0 := if env.parsedDocNo = "" then "!" else env.parsedDocNo
  let d1 := if pyEndsWith (pyLower d0) ".pdf" then pyDropRight d0 4 else d0
  if ¬ d1 = "!" ∧ sanitizeStem d1 = "" then "!" else d1

/-- The file type after the same post-processing: forced `Unknown` when the
document number was blanked out. -/
def phase1FileTypeOf (env : FsEnv) : FileType :=
  let d0 := if env.parsedDocNo = "" then "!" else env.parsedDocNo
  let d1 := if pyEndsWith (pyLower d0) ".pdf" then pyDropRight d0 4 else d0
  if ¬ d1 = "!" ∧ sanitizeStem d1 = "" then FileType.Unknown else env.parsedType

/-- The sanitized stem used for the preferred rename target
(`safe_doc_stem`, line 476). -/
def phase1SafeStem (env : FsEnv) : String :=
  if ¬ phase1DocNo env = "!" then sanitizeStem (phase1DocNo env) else ""

/-- The first-seen branch of `Phase1Processor._run` (watcher.py lines
467–520): record the fingerprint, classify, choose a collision-free target,
attempt the rename with sentinel fallback, and update the canonical map.
Returns `none` only when the search fuel of the model is exhausted (the
Python loop would still be running). -/
def processFirstSeen (ws : WorkerState) (env : FsEnv) (batchId : Nat)
    (orig fp : String) : Option (WorkerState × ProcLog × Option Phase1Result) :=
  let seen1 := listInsert fp ws.seen_fingerprints
  let docNo := phase1DocNo env
  let fileType := phase1FileTypeOf env
  let dirPath := pyDirname orig
  let fp12 := pyTake fp 12
  let preferredO :=
    if ¬ docNo = "!" then
      chooseCollisionFreePath env.fsPaths env.chooseFuel dirPath (phase1SafeStem env) ".pdf"
    else
      chooseCollisionFreePath env.fsPaths env.chooseFuel dirPath ("!__" ++ fp12) ".pdf"
  let fallbackO :=
    chooseCollisionFreePath env.fsPaths env.chooseFuel dirPath ("!__" ++ fp12) ".pdf"
  match preferredO, fallbackO with
  | some preferred, some fallback =>
    let step :
        Option String × String × FileType × List (String × String) × List (String × Bool) :=
      if ¬ docNo = "!" then
        let a1 := attemptRename orig preferred env.renamePreferredOk
        match a1.result with
        | some r1 => (some r1, docNo, fileType, a1.moves, [a1.attempt])
        | none =>
          -- line 495: if the doc_no-based rename fails, attempt the fallback
          let a2 := attemptRename orig fallback env.renameFallbackOk
          (a2.result, "!", FileType.Unknown, a1.moves ++ a2.moves, [a1.attempt, a2.attempt])
      else
        let a2 := attemptRename orig fallback env.renameFallbackOk
        (a2.result, docNo, fileType, a2.moves, [a2.attempt])
    -- line 502: only if both renames fail may we leave in place
    let renamed := match step.1 with | some r => r | none => orig
    let docNo1 := match step.1 with | some _ => step.2.1 | none => "!"
    let fileType1 := match step.1 with | some _ => step.2.2.1 | none => FileType.Unknown
    let canon1 := setFp ws.canonical_path_by_fp fp (normalizePath renamed)
    some (WorkerState.mk seen1 canon1,
      ProcLog.mk step.2.2.2.1 step.2.2.2.2 true,
      some (Phase1Result.mk batchId orig fp docNo1 fileType1 renamed Phase1Kind.processed))
  | _, _ => none

/-- One iteration of the `Phase1Processor._run` loop body (watcher.py lines
320–546) for a dequeued `(batchId, path)`: existence check, fingerprint,
duplicate branch or first-seen branch.  `none` only on model fuel
exhaustion. -/
def processItem (ws : WorkerState) (env : FsEnv) (batchId : Nat)
    (origPath : String) : Option (WorkerState × ProcLog × Option Phase1Result) :=
  let orig := normalizePath origPath
  if orig = "" ∨ env.existsOrig = false then
    -- line 328: path vanished; abandon silently (still emits `done`)
    some (ws, emptyLog, none)
  else
    match env.hashOrig with
    | none =>
      -- lines 521-539: `fp` is still `""`, so nothing is rolled back and a
      -- `processed` result with unknown identity is stored
      some (ws, emptyLog,
        some (Phase1Result.mk batchId orig "" "!" FileType.Unknown "" Phase1Kind.processed))
    | some fp =>
      if fp ∈ ws.seen_fingerprints then some (processDuplicate ws env batchId orig fp)
      else processFirstSeen ws env batchId orig fp

/-! ## Order lemmas for the batch sort key -/

theorem lexLt_irrefl (a : List Char) : lexLt a a = false := by
  induction a with
  | nil => rfl
  | cons c cs ih => simp [lexLt, ih]

theorem lexLt_cons_iff {x y : Char} {xs ys : List Char} :
    lexLt (x :: xs) (y :: ys) = true ↔
      (x.toNat < y.toNat ∨ (x.toNat = y.toNat ∧ lexLt xs ys = true)) := by
  by_cases h1 : x.toNat < y.toNat
  · simp [lexLt, h1]
  · by_cases h2 : y.toNat < x.toNat
    · simp only [lexLt]
      rw [if_neg h1, if_pos h2]
      constructor
      · intro h; cases h
      · intro h
        rcases h with h | ⟨h, _⟩
        · exact absurd h h1
        · exact absurd h2 (by omega)
    · have he : x.toNat = y.toNat := by omega
      simp [lexLt, h1, h2, he]

theorem lexLt_trans : ∀ {a b c : List Char},
    lexLt a b = true → lexLt b c = true → lexLt a c = true := by
  intro a
  induction a with
  | nil =>
    intro b c h1 h2
    cases b with
    | nil => exact h2
    | cons y ys =>
      cases c with
      | nil => simp [lexLt] at h2
      | cons z zs => rfl
  | cons x xs ih =>
    intro b c h1 h2
    cases b with
    | nil => simp [lexLt] at h1
    | cons y ys =>
      cases c with
      | nil => simp [lexLt] at h2
      | cons z zs =>
        rcases lexLt_cons_iff.mp h1 with hl | ⟨he, hl⟩ <;>
          rcases lexLt_cons_iff.mp h2 with hl2 | ⟨he2, hl2⟩ <;>
          refine lexLt_cons_iff.mpr ?_
        · exact Or.inl (by omega)
        · exact Or.inl (by omega)
        · exact Or.inl (by omega)
        · exact Or.inr ⟨by omega, ih hl hl2⟩

theorem charEqOfToNat {x y : Char} (h : x.toNat = y.toNat) : x = y :=
  Char.ext (UInt32.ext h)

theorem lexLt_conn : ∀ {a b : List Char}, ¬ a = b →
    lexLt a b = true ∨ lexLt b a = true := by
  intro a
  induction a with
  | nil =>
    intro b hne
    cases b with
    | nil => exact absurd rfl hne
    | cons y ys => exact Or.inl rfl
  | cons x xs ih =>
    intro b hne
    cases b with
    | nil => exact Or.inr rfl
    | cons y ys =>
      by_cases hxy : x.toNat < y.toNat
      · exact Or.inl (lexLt_cons_iff.mpr (Or.inl hxy))
      · by_cases hyx : y.toNat < x.toNat
        · exact Or.inr (lexLt_cons_iff.mpr (Or.inl hyx))
        · have hx : x = y := charEqOfToNat (by omega)
          subst hx
          have hne2 : ¬ xs = ys := fun h => hne (by rw [h])
          rcases ih hne2 with h | h
          · exact Or.inl (lexLt_cons_iff.mpr (Or.inr ⟨rfl, h⟩))
          · exact Or.inr (lexLt_cons_iff.mpr (Or.inr ⟨rfl, h⟩))

theorem lexLe_trans {a b c : List Char}
    (h1 : lexLe a b = true) (h2 : lexLe b c = true) : lexLe a c = true := by
  simp only [lexLe, Bool.or_eq_true, decide_eq_true_eq] at h1 h2 ⊢
  rcases h1 with h1 | h1
  · rcases h2 with h2 | h2
    · exact Or.inl (lexLt_trans h1 h2)
    · exact Or.inl (h2 ▸ h1)
  · exact h1 ▸ h2

theorem lexLe_total (a b : List Char) : lexLe a b = true ∨ lexLe b a = true := by
  by_cases h : a = b
  · exact Or.inl (by simp [lexLe, h])
  · rcases lexLt_conn h with h' | h'
    · exact Or.inl (by simp [lexLe, h'])
    · exact Or.inr (by simp [lexLe, h'])

theorem batchLEb_total (p q : String) : batchLEb p q = true ∨ batchLEb q p = true := by
  unfold batchLEb
  by_cases h : (batchSortKey p).1 = (batchSortKey q).1
  · rcases lexLe_total (batchSortKey p).2 (batchSortKey q).2 with h2 | h2
    · exact Or.inl (by simp [h, h2])
    · exact Or.inr (by simp [h.symm, h2])
  · rcases lexLt_conn h with h' | h'
    · exact Or.inl (by simp [h'])
    · exact Or.inr (by simp [h'])

theorem batchLEb_trans {p q r : String}
    (h1 : batchLEb p q = true) (h2 : batchLEb q r = true) : batchLEb p r = true := by
  unfold batchLEb at h1 h2 ⊢
  simp only [Bool.or_eq_true, Bool.and_eq_true, decide_eq_true_eq] at h1 h2 ⊢
  rcases h1 with h1 | ⟨h1e, h1l⟩
  · rcases h2 with h2 | ⟨h2e, h2l⟩
    · exact Or.inl (lexLt_trans h1 h2)
    · exact Or.inl (h2e ▸ h1)
  · rcases h2 with h2 | ⟨h2e, h2l⟩
    · exact Or.inl (h1e ▸ h2)
    · exact Or.inr ⟨h1e.trans h2e, lexLe_trans h1l h2l⟩

/-! ## Insertion sort lemmas -/

theorem insertSorted_perm (le : String → String → Bool) (a : String) :
    ∀ l : List String, (insertSorted le a l).Perm (a :: l) := by
  intro l
  induction l with
  | nil => exact List.Perm.refl _
  | cons b bs ih =>
    unfold insertSorted
    by_cases h : le a b = true
    · simp [h]
    · simp only [h, if_false]
      exact (List.Perm.cons b ih).trans (List.Perm.swap a b bs)

theorem pySortedBy_perm (le : String → String → Bool) :
    ∀ l : List String, (pySortedBy le l).Perm l := by
  intro l
  induction l with
  | nil => exact List.Perm.refl _
  | cons a as ih =>
    exact (insertSorted_perm le a (pySortedBy le as)).trans (List.Perm.cons a ih)

theorem pairwise_insertSorted (le : String → String → Bool)
    (htot : ∀ x y, le x y = true ∨ le y x = true)
    (htrans : ∀ x y z, le x y = true → le y z = true → le x z = true)
    (a : String) :
    ∀ l : List String, List.Pairwise (fun x y => le x y = true) l →
      List.Pairwise (fun x y => le x y = true) (insertSorted le a l) := by
  intro l
  induction l with
  | nil => intro _; exact List.pairwise_singleton _ a
  | cons b bs ih =>
    intro h
    rcases List.pairwise_cons.mp h with ⟨hb, hbs⟩
    unfold insertSorted
    by_cases hab : le a b = true
    · simp only [hab, if_true]
      refine List.pairwise_cons.mpr ⟨?_, h⟩
      intro x hx
      rcases List.mem_cons.mp hx with rfl | hx
      · exact hab
      · exact htrans a b x hab (hb x hx)
    · simp only [hab, if_false]
      refine List.pairwise_cons.mpr ⟨?_, ih hbs⟩
      intro x hx
      have hx' := (insertSorted_perm le a bs).mem_iff.mp hx
      rcases List.mem_cons.mp hx' with rfl | hx'
      · rcases htot x b with h' | h'
        · exact absurd h' hab
        · exact h'
      · exact hb x hx'

theorem pairwise_pySortedBy (le : String → String → Bool)
    (htot : ∀ x y, le x y = true ∨ le y x = true)
    (htrans : ∀ x y z, le x y = true → le y z = true → le x z = true) :
    ∀ l : List String, List.Pairwise (fun x y => le x y = true) (pySortedBy le l) := by
  intro l
  induction l with
  | nil => exact List.Pairwise.nil
  | cons a as ih => exact pairwise_insertSorted le htot htrans a _ ih

/-! ## Claim C7: deterministic batch freeze -/

/-- C7.  When no batch is active and the pending set is non-empty,
`start_next_batch_if_idle` freezes the pending paths sorted by the key
(lowercased basename, full normalized path) — in particular pending
`{"b.pdf","A.pdf","a2.pdf"}` freezes in order `["A.pdf","a2.pdf","b.pdf"]` —
empties the pending set, assigns the next monotonic batch id, and returns one
`WorkItem` per path, indexed `0..n-1` in that sorted order with status
`pending`. -/
theorem C7_batch_freeze_deterministic (st : SchedState)
    (hidle : st.active_batch = none) (hne : ¬ st.pending_paths = []) :
    ((start_next_batch_if_idle st).2.map (fun i => i.path)).Perm st.pending_paths ∧
    List.Pairwise (fun p q => batchLEb p q = true)
      ((start_next_batch_if_idle st).2.map (fun i => i.path)) ∧
    (start_next_batch_if_idle st).1.pending_paths = [] ∧
    (start_next_batch_if_idle st).1.next_batch_id = st.next_batch_id + 1 ∧
    (∀ i ∈ (start_next_batch_if_idle st).2,
      i.batch_id = st.next_batch_id ∧ i.status = WorkStatus.pending) ∧
    (start_next_batch_if_idle st).2.map (fun i => i.index) =
      List.range st.pending_paths.length ∧
    (start_next_batch_if_idle st).1.active_batch =
      some (ActiveBatch.mk st.next_batch_id (pySortedBy batchLEb st.pending_paths)
        (pySortedBy batchLEb st.pending_paths).length 0) ∧
    pySortedBy batchLEb ["b.pdf", "A.pdf", "a2.pdf"] = ["A.pdf", "a2.pdf", "b.pdf"] := by
  have hstep : start_next_batch_if_idle st =
      ({ st with
          pending_paths :=
            st.pending_paths.filter (fun p => ¬ p ∈ pySortedBy batchLEb st.pending_paths),
          next_batch_id := st.next_batch_id + 1,
          active_batch := some (ActiveBatch.mk st.next_batch_id
            (pySortedBy batchLEb st.pending_paths)
            (pySortedBy batchLEb st.pending_paths).length 0),
          work_queue := ((pySortedBy batchLEb st.pending_paths).enum).map
            (fun e => WorkItem.mk st.next_batch_id e.2 e.1 WorkStatus.pending) },
        ((pySortedBy batchLEb st.pending_paths).enum).map
          (fun e => WorkItem.mk st.next_batch_id e.2 e.1 WorkStatus.pending)) := by
    unfold start_next_batch_if_idle
    rw [hidle, if_neg hne]
  have hperm := pySortedBy_perm batchLEb st.pending_paths
  have hpaths : (start_next_batch_if_idle st).2.map (fun i => i.path) =
      pySortedBy batchLEb st.pending_paths := by
    rw [hstep]
    simp only [List.map_map]
    rw [show ((fun (i : WorkItem) => i.path) ∘
        (fun e : Nat × String => WorkItem.mk st.next_batch_id e.2 e.1 WorkStatus.pending)) =
        Prod.snd from rfl]
    exact List.enum_map_snd _
  refine ⟨?_, ?_, ?_, ?_, ?_, ?_, ?_, by decide⟩
  · rw [hpaths]; exact hperm
  · rw [hpaths]
    exact pairwise_pySortedBy batchLEb batchLEb_total (fun x y z => batchLEb_trans) _
  · rw [hstep]
    simp only [List.filter_eq_nil_iff]
    intro p hp
    simp only [decide_not, Bool.not_eq_true', decide_eq_false_iff_not, Decidable.not_not]
    exact hperm.symm.mem_iff.mp hp
  · rw [hstep]
  · rw [hstep]
    intro i hi
    simp only [List.mem_map] at hi
    rcases hi with ⟨e, _, rfl⟩
    exact ⟨rfl, rfl⟩
  · rw [hstep]
    simp only [List.map_map, Function.comp]
    rw [show ((fun (i : WorkItem) => i.index) ∘
        (fun e : Nat × String => WorkItem.mk st.next_batch_id e.2 e.1 WorkStatus.pending)) =
        Prod.fst from rfl]
    rw [List.enum_map_fst, hperm.length_eq]
  · rw [hstep]

/-- Concrete scheduler state for the C7 witness. -/
def stC7 : SchedState :=
  SchedState.mk "/w" ["b.pdf", "A.pdf", "a2.pdf"] ["b.pdf", "A.pdf", "a2.pdf"] none [] 1

/-- Witness for C7 at a concrete state. -/
theorem C7_batch_freeze_deterministic_witness :
    stC7.active_batch = none ∧ ¬ stC7.pending_paths = [] ∧
      ((start_next_batch_if_idle stC7).2.map (fun i => i.path)).Perm stC7.pending_paths :=
  ⟨rfl, by decide, (C7_batch_freeze_deterministic stC7 rfl (by decide)).1⟩

/-! ## Claims C8–C10: scheduler invariants -/

/-- C8.  At most one batch is ever in flight: whenever a batch is active,
`start_next_batch_if_idle` returns the empty list and leaves the state
unchanged, while `on_fs_event` only accumulates newly discovered paths into
the pending set (never touching the active batch or work queue); a second
batch can only be started from a state whose active batch is `none`. -/
theorem C8_single_inflight_batch (st : SchedState) (ab : ActiveBatch)
    (hact : st.active_batch = some ab) :
    start_next_batch_if_idle st = (st, []) ∧
    (∀ p, (on_fs_event st p).active_batch = st.active_batch ∧
          (on_fs_event st p).work_queue = st.work_queue ∧
          ((on_fs_event st p).pending_paths = st.pending_paths ∨
           (on_fs_event st p).pending_paths = normalizePath p :: st.pending_paths)) ∧
    (∀ st2 : SchedState, ¬ (start_next_batch_if_idle st2).2 = [] →
      st2.active_batch = none) := by
  refine ⟨?_, ?_, ?_⟩
  · unfold start_next_batch_if_idle
    rw [hact]
  · intro p
    simp only [on_fs_event]
    split_ifs
    all_goals
      first
        | exact ⟨rfl, rfl, Or.inl rfl⟩
        | (refine ⟨rfl, rfl, ?_⟩
           simp only [listInsert]
           split_ifs
           · exact Or.inl rfl
           · exact Or.inr rfl)
  · intro st2 hne
    cases h2 : st2.active_batch with
    | none => rfl
    | some ab2 =>
      exfalso
      apply hne
      unfold start_next_batch_if_idle
      rw [h2]

/-- Concrete scheduler state for the C8 witness. -/
def stC8 : SchedState :=
  SchedState.mk "/w" ["/w/a.pdf"] [] (some (ActiveBatch.mk 1 ["/w/a.pdf"] 1 0))
    [WorkItem.mk 1 "/w/a.pdf" 0 WorkStatus.pending] 2

/-- Witness for C8 at a concrete state. -/
theorem C8_single_inflight_batch_witness :
    stC8.active_batch = some (ActiveBatch.mk 1 ["/w/a.pdf"] 1 0) ∧
      start_next_batch_if_idle stC8 = (stC8, []) :=
  ⟨rfl, (C8_single_inflight_batch stC8 (ActiveBatch.mk 1 ["/w/a.pdf"] 1 0) rfl).1⟩

/-- Re-running `mark_item_done`'s loop on its own output changes nothing:
the first matching item is already `done`. -/
theorem markDoneFirst_again (bid : Nat) (n : String) :
    ∀ l : List WorkItem,
      markDoneFirst bid n (markDoneFirst bid n l).1 = ((markDoneFirst bid n l).1, false) := by
  intro l
  induction l with
  | nil => rfl
  | cons item rest ih =>
    by_cases hm : item.batch_id = bid ∧ item.path = n
    · by_cases hd : item.status = WorkStatus.done
      · simp [markDoneFirst, hm, hd]
      · simp [markDoneFirst, hm, hd]
    · simp [markDoneFirst, hm, ih]

/-- Python `mark_item_done` with no active batch is a no-op. -/
theorem mido_none {st : SchedState} (b : Nat) (p : String)
    (h : st.active_batch = none) : mark_item_done st b p = st := by
  unfold mark_item_done
  rw [h]

/-- Python `mark_item_done` with a foreign batch id is a no-op. -/
theorem mido_mismatch {st : SchedState} {ab : ActiveBatch} (b : Nat) (p : String)
    (h : st.active_batch = some ab) (hb : ¬ ab.batch_id = b) :
    mark_item_done st b p = st := by
  unfold mark_item_done
  rw [h]
  simp only
  rw [if_pos hb]

/-- Python `mark_item_done` on the active batch: the loop marks the first matching
item, the count is incremented iff the loop reported a change, and the batch
is destroyed iff the count reaches the total. -/
theorem mido_match {st : SchedState} {ab : ActiveBatch} (b : Nat) (p : String)
    (h : st.active_batch = some ab) (hb : ab.batch_id = b) :
    mark_item_done st b p =
      (if (if (markDoneFirst b (normalizePath p) st.work_queue).2 then
              { ab with done_count := ab.done_count + 1 } else ab).total ≤
           (if (markDoneFirst b (normalizePath p) st.work_queue).2 then
              { ab with done_count := ab.done_count + 1 } else ab).done_count then
         { st with active_batch := none, work_queue := [] }
       else
         { st with
             active_batch := some (if (markDoneFirst b (normalizePath p) st.work_queue).2 then
               { ab with done_count := ab.done_count + 1 } else ab),
             work_queue := (markDoneFirst b (normalizePath p) st.work_queue).1 }) := by
  unfold mark_item_done
  rw [h]
  simp only
  rw [if_neg (fun hh => hh hb)]

/-- C9.  `mark_item_done` marks the matching work item done exactly once —
calling it twice with the same `(batchId, path)` yields the same state as
calling it once — and increments the active batch's `done_count` only on the
first such call, so `done_count` stays below the total whenever a batch
remains active; and the batch is destroyed (set to `none`, queue emptied)
exactly when the (possibly incremented) count reaches the total. -/
theorem C9_mark_item_done_once (st : SchedState) (b : Nat) (p : String) :
    mark_item_done (mark_item_done st b p) b p = mark_item_done st b p ∧
    ((∀ ab, st.active_batch = some ab → ab.done_count < ab.total) →
      ∀ ab1, (mark_item_done st b p).active_batch = some ab1 →
        ab1.done_count < ab1.total) ∧
    (∀ ab, st.active_batch = some ab → ab.batch_id = b →
      (((mark_item_done st b p).active_batch = none ∧
        (mark_item_done st b p).work_queue = []) ↔
       ab.total ≤ (if (markDoneFirst b (normalizePath p) st.work_queue).2 then
          ab.done_count + 1 else ab.done_count))) := by
  refine ⟨?_, ?_, ?_⟩
  · cases hact : st.active_batch with
    | none =>
      rw [mido_none b p hact, mido_none b p hact]
    | some ab =>
      by_cases hb : ab.batch_id = b
      · rw [mido_match b p hact hb]
        set r := markDoneFirst b (normalizePath p) st.work_queue with hr
        set ab1 := (if r.2 then { ab with done_count := ab.done_count + 1 } else ab)
          with hab1
        by_cases hfull : ab1.total ≤ ab1.done_count
        · rw [if_pos hfull]
          exact mido_none b p rfl
        · rw [if_neg hfull]
          have hb1 : ab1.batch_id = b := by
            rw [hab1]; split_ifs <;> exact hb
          rw [mido_match b p rfl hb1]
          have hagain : markDoneFirst b (normalizePath p) r.1 = (r.1, false) := by
            rw [hr]
            exact markDoneFirst_again b (normalizePath p) st.work_queue
          simp only [hagain, if_neg hfull, Bool.false_eq_true, if_false]
      · rw [mido_mismatch b p hact hb, mido_mismatch b p hact hb]
  · intro hinv ab1 hab1
    cases hact : st.active_batch with
    | none =>
      rw [mido_none b p hact] at hab1
      exact hinv ab1 hab1
    | some ab =>
      by_cases hb : ab.batch_id = b
      · rw [mido_match b p hact hb] at hab1
        set r := markDoneFirst b (normalizePath p) st.work_queue with hr
        set ab2 := (if r.2 then { ab with done_count := ab.done_count + 1 } else ab)
          with hab2
        by_cases hc : ab2.total ≤ ab2.done_count
        · rw [if_pos hc] at hab1
          cases hab1
        · rw [if_neg hc] at hab1
          simp only [Option.some.injEq] at hab1
          subst hab1
          omega
      · rw [mido_mismatch b p hact hb] at hab1
        exact hinv ab1 hab1
  · intro ab hact hb
    rw [mido_match b p hact hb]
    set r := markDoneFirst b (normalizePath p) st.work_queue with hr
    set ab1 := (if r.2 then { ab with done_count := ab.done_count + 1 } else ab)
      with hab1
    have htot : ab1.total = ab.total := by
      rw [hab1]; split_ifs <;> rfl
    have hdc : ab1.done_count = (if r.2 then ab.done_count + 1 else ab.done_count) := by
      rw [hab1]; split_ifs <;> rfl
    by_cases hc : ab1.total ≤ ab1.done_count
    · rw [if_pos hc]
      exact iff_of_true ⟨rfl, rfl⟩ (by rw [← hdc, ← htot]; exact hc)
    · rw [if_neg hc]
      refine iff_of_false ?_ (by rw [← hdc, ← htot]; exact hc)
      intro hcontra
      exact Option.noConfusion hcontra.1

/-- Concrete scheduler state for the C9 witness. -/
def stC9 : SchedState :=
  SchedState.mk "/w" ["/w/a.pdf"] [] (some (ActiveBatch.mk 1 ["/w/a.pdf"] 1 0))
    [WorkItem.mk 1 "/w/a.pdf" 0 WorkStatus.pending] 2

/-- Witness for C9 at a concrete state. -/
theorem C9_mark_item_done_once_witness :
    mark_item_done (mark_item_done stC9 1 "/w/a.pdf") 1 "/w/a.pdf" =
      mark_item_done stC9 1 "/w/a.pdf" ∧
    (∀ ab1, (mark_item_done stC9 1 "/w/a.pdf").active_batch = some ab1 →
      ab1.done_count < ab1.total) :=
  ⟨(C9_mark_item_done_once stC9 1 "/w/a.pdf").1,
   (C9_mark_item_done_once stC9 1 "/w/a.pdf").2.1
     (by intro ab hab; cases hab; decide)⟩

/-- The `running` loop leaves the queue unchanged when no item matches. -/
theorem setRunningFirst_nomatch (bid : Nat) (n : String) :
    ∀ l : List WorkItem,
      (∀ item ∈ l, ¬ (item.batch_id = bid ∧ item.path = n)) →
      setRunningFirst bid n l = l := by
  intro l
  induction l with
  | nil => intro _; rfl
  | cons item rest ih =>
    intro h
    unfold setRunningFirst
    rw [if_neg (h item (List.mem_cons_self item rest))]
    rw [ih (fun i hi => h i (List.mem_cons_of_mem item hi))]

/-- The `done` loop leaves the queue unchanged and reports no change when no
item matches. -/
theorem markDoneFirst_nomatch (bid : Nat) (n : String) :
    ∀ l : List WorkItem,
      (∀ item ∈ l, ¬ (item.batch_id = bid ∧ item.path = n)) →
      markDoneFirst bid n l = (l, false) := by
  intro l
  induction l with
  | nil => intro _; rfl
  | cons item rest ih =>
    intro h
    unfold markDoneFirst
    rw [if_neg (h item (List.mem_cons_self item rest))]
    rw [ih (fun i hi => h i (List.mem_cons_of_mem item hi))]

/-- C10.  Scheduler events for a stale or foreign batch are no-ops: when no
batch is active, or the event's batch id differs from the active batch's id,
or no work item of the active batch matches the event's path,
`mark_item_running` and `mark_item_done` leave the entire state unchanged. -/
theorem C10_stale_events_noop (st : SchedState) (b : Nat) (p : String) :
    (st.active_batch = none →
      mark_item_running st b p = st ∧ mark_item_done st b p = st) ∧
    (∀ ab, st.active_batch = some ab → ¬ ab.batch_id = b →
      mark_item_running st b p = st ∧ mark_item_done st b p = st) ∧
    (∀ ab, st.active_batch = some ab → ab.batch_id = b →
      ab.done_count < ab.total →
      (∀ item ∈ st.work_queue,
        ¬ (item.batch_id = b ∧ item.path = normalizePath p)) →
      mark_item_running st b p = st ∧ mark_item_done st b p = st) := by
  refine ⟨?_, ?_, ?_⟩
  · intro h
    constructor
    · unfold mark_item_running
      rw [h]
    · exact mido_none b p h
  · intro ab hact hb
    constructor
    · unfold mark_item_running
      rw [hact]
      simp only
      rw [if_pos hb]
    · exact mido_mismatch b p hact hb
  · intro ab hact hb hlt hnm
    constructor
    · unfold mark_item_running
      rw [hact]
      simp only
      rw [if_neg (fun hh => hh hb)]
      rw [setRunningFirst_nomatch b (normalizePath p) st.work_queue hnm]
      rw [← hact]
    · rw [mido_match b p hact hb]
      rw [markDoneFirst_nomatch b (normalizePath p) st.work_queue hnm]
      simp only [Bool.false_eq_true, if_false]
      rw [if_neg (by omega)]
      rw [← hact]

/-- Concrete scheduler state for the C10 witness: active batch id 2, events
arrive for batch 1. -/
def stC10 : SchedState :=
  SchedState.mk "/w" ["/w/a.pdf"] [] (some (ActiveBatch.mk 2 ["/w/a.pdf"] 1 0))
    [WorkItem.mk 2 "/w/a.pdf" 0 WorkStatus.pending] 3

/-- Witness for C10 at a concrete state: a foreign batch id is ignored. -/
theorem C10_stale_events_noop_witness :
    stC10.active_batch = some (ActiveBatch.mk 2 ["/w/a.pdf"] 1 0) ∧
    mark_item_running stC10 1 "/w/a.pdf" = stC10 ∧
    mark_item_done stC10 1 "/w/a.pdf" = stC10 :=
  ⟨rfl,
   ((C10_stale_events_noop stC10 1 "/w/a.pdf").2.1
      (ActiveBatch.mk 2 ["/w/a.pdf"] 1 0) rfl (by decide)).1,
   ((C10_stale_events_noop stC10 1 "/w/a.pdf").2.1
      (ActiveBatch.mk 2 ["/w/a.pdf"] 1 0) rfl (by decide)).2⟩

/-! ## Claim C2: collision-group status enforcement -/

theorem applyGroupMember_fields (r : RowModel) :
    (applyGroupMember r).display_name = r.display_name ∧
    (applyGroupMember r).file_type = r.file_type ∧
    (applyGroupMember r).status = RowStatus.Review ∧
    (applyGroupMember r).checkbox_enabled = false ∧
    (applyGroupMember r).checked = false := by
  unfold applyGroupMember applyCheckboxRule
  rw [if_neg (fun h => RowStatus.noConfusion h.1)]
  exact ⟨rfl, rfl, rfl, rfl, rfl⟩

theorem applySingleMember_fields (r : RowModel) :
    (applySingleMember r).display_name = r.display_name ∧
    (applySingleMember r).file_type = r.file_type ∧
    (applySingleMember r).status =
      (if ¬ r.display_name = "!" ∧ ¬ r.file_type = FileType.Unknown then
        RowStatus.Ready else RowStatus.Review) := by
  unfold applySingleMember applyCheckboxRule
  split_ifs with h1 h2 h3 <;> exact ⟨rfl, rfl, rfl⟩

theorem applySingleMember_cbx (r : RowModel) :
    ((applySingleMember r).checkbox_enabled = true →
      (applySingleMember r).status = RowStatus.Ready ∧
      ((applySingleMember r).file_type = FileType.TaxInvoice ∨
       (applySingleMember r).file_type = FileType.Proforma)) ∧
    (¬ ((applySingleMember r).status = RowStatus.Ready ∧
        ((applySingleMember r).file_type = FileType.TaxInvoice ∨
         (applySingleMember r).file_type = FileType.Proforma)) →
      (applySingleMember r).checkbox_enabled = false ∧
      (applySingleMember r).checked = false) := by
  unfold applySingleMember applyCheckboxRule
  split_ifs with h1 h2 h3
  · exact ⟨fun _ => ⟨rfl, h2.2⟩, fun hcon => absurd ⟨rfl, h2.2⟩ hcon⟩
  · exact ⟨fun h => h.elim, fun _ => ⟨rfl, rfl⟩⟩
  · exact h3.1.elim
  · exact ⟨fun h => h.elim, fun _ => ⟨rfl, rfl⟩⟩

/-- The map bodies of both branches preserve `inGroup` membership. -/
theorem inGroup_applyGroupMember (canon : String) (r : RowModel) :
    inGroup canon (applyGroupMember r) = inGroup canon r := by
  unfold inGroup
  rw [(applyGroupMember_fields r).1]

theorem inGroup_applySingleMember (canon : String) (r : RowModel) :
    inGroup canon (applySingleMember r) = inGroup canon r := by
  unfold inGroup
  rw [(applySingleMember_fields r).1]

/-- The collision group of rows counting also `Processed` members (as the
source counts it) is at least as large as its non-`Processed` part. -/
theorem group_count_le (rows : List RowModel) (canon : String) :
    (rows.filter (fun r =>
        inGroup canon r ∧ ¬ r.status = RowStatus.Processed)).length ≤
      (rows.filter (fun r => inGroup canon r)).length := by
  rw [← List.countP_eq_length_filter, ← List.countP_eq_length_filter]
  refine List.countP_mono_left ?_
  intro r _ h
  simp only [decide_eq_true_eq] at h ⊢
  exact h.1

/-- The two-sided branch reduction of `enforce_display_name_group_status`
under a pre-casefolded non-sentinel `canon`. -/
theorem enforce_branches (rows : List RowModel) (canon : String)
    (hcf : canonName canon = canon) (hne : ¬ canon = "") (hns : ¬ canon = "!") :
    enforce_display_name_group_status rows canon =
      (if 2 ≤ (rows.filter (fun r => inGroup canon r)).length then
        rows.map (fun r => if inGroup canon r then applyGroupMember r else r)
      else if (rows.filter (fun r => inGroup canon r)).length = 1 then
        rows.map (fun r => if inGroup canon r then applySingleMember r else r)
      else rows) := by
  unfold enforce_display_name_group_status
  rw [hcf]
  rw [if_neg (by rintro (h | h) <;> [exact hne h; exact hns h])]

/-- C2.  After `enforce_display_name_group_status(state, canon)` for a
non-sentinel, already-casefolded canonical name: if two or more non-Processed
rows share the name, every row of the group is `Review` with the checkbox
disabled and cleared; if exactly one row bears the name, its status is
`Ready` iff its display name is not `"!"` and its type is not `Unknown`; and
in either case the checkbox is enabled only for a resulting `Ready` row of
type TaxInvoice/Proforma, otherwise it is disabled and the check cleared. -/
theorem C2_collision_group_status (rows : List RowModel) (canon : String)
    (hcf : canonName canon = canon) (hne : ¬ canon = "") (hns : ¬ canon = "!") :
    (2 ≤ (rows.filter (fun r =>
        inGroup canon r ∧ ¬ r.status = RowStatus.Processed)).length →
      ∀ r1 ∈ enforce_display_name_group_status rows canon, inGroup canon r1 = true →
        r1.status = RowStatus.Review ∧ r1.checkbox_enabled = false ∧
        r1.checked = false) ∧
    ((rows.filter (fun r => inGroup canon r)).length = 1 →
      ∀ r1 ∈ enforce_display_name_group_status rows canon, inGroup canon r1 = true →
        r1.status = (if ¬ r1.display_name = "!" ∧ ¬ r1.file_type = FileType.Unknown
          then RowStatus.Ready else RowStatus.Review)) ∧
    ((2 ≤ (rows.filter (fun r =>
        inGroup canon r ∧ ¬ r.status = RowStatus.Processed)).length ∨
      (rows.filter (fun r => inGroup canon r)).length = 1) →
      ∀ r1 ∈ enforce_display_name_group_status rows canon, inGroup canon r1 = true →
        (r1.checkbox_enabled = true →
          r1.status = RowStatus.Ready ∧
          (r1.file_type = FileType.TaxInvoice ∨ r1.file_type = FileType.Proforma)) ∧
        (¬ (r1.status = RowStatus.Ready ∧
            (r1.file_type = FileType.TaxInvoice ∨ r1.file_type = FileType.Proforma)) →
          r1.checkbox_enabled = false ∧ r1.checked = false)) := by
  have hbr := enforce_branches rows canon hcf hne hns
  refine ⟨?_, ?_, ?_⟩
  · intro hcount r1 hr1 hgr1
    have h2 : 2 ≤ (rows.filter (fun r => inGroup canon r)).length :=
      le_trans hcount (group_count_le rows canon)
    rw [hbr, if_pos h2] at hr1
    rcases List.mem_map.mp hr1 with ⟨r, _, rfl⟩
    by_cases hg : inGroup canon r = true
    · rw [if_pos hg]
      rw [if_pos hg] at hgr1
      exact ⟨(applyGroupMember_fields r).2.2.1, (applyGroupMember_fields r).2.2.2.1,
        (applyGroupMember_fields r).2.2.2.2⟩
    · rw [if_neg hg] at hgr1
      exact absurd hgr1 hg
  · intro hone r1 hr1 hgr1
    have hn2 : ¬ 2 ≤ (rows.filter (fun r => inGroup canon r)).length := by omega
    rw [hbr, if_neg hn2, if_pos hone] at hr1
    rcases List.mem_map.mp hr1 with ⟨r, _, rfl⟩
    by_cases hg : inGroup canon r = true
    · rw [if_pos hg]
      have hf := applySingleMember_fields r
      rw [hf.2.2, ← hf.1, ← hf.2.1]
    · rw [if_neg hg] at hgr1
      exact absurd hgr1 hg
  · intro hcase r1 hr1 hgr1
    rcases hcase with hcount | hone
    · have h2 : 2 ≤ (rows.filter (fun r => inGroup canon r)).length :=
        le_trans hcount (group_count_le rows canon)
      rw [hbr, if_pos h2] at hr1
      rcases List.mem_map.mp hr1 with ⟨r, _, rfl⟩
      by_cases hg : inGroup canon r = true
      · rw [if_pos hg]
        refine ⟨fun h => absurd ((applyGroupMember_fields r).2.2.2.1 ▸ h)
          (fun hh => Bool.noConfusion hh), fun _ =>
          ⟨(applyGroupMember_fields r).2.2.2.1, (applyGroupMember_fields r).2.2.2.2⟩⟩
      · rw [if_neg hg] at hgr1
        exact absurd hgr1 hg
    · have hn2 : ¬ 2 ≤ (rows.filter (fun r => inGroup canon r)).length := by omega
      rw [hbr, if_neg hn2, if_pos hone] at hr1
      rcases List.mem_map.mp hr1 with ⟨r, _, rfl⟩
      by_cases hg : inGroup canon r = true
      · rw [if_pos hg]
        exact applySingleMember_cbx r
      · rw [if_neg hg] at hgr1
        exact absurd hgr1 hg

/-- Concrete rows for the C2 witness: two non-Processed rows named INV-1. -/
def rowA : RowModel :=
  RowModel.mk "r1" "INV-1" FileType.TaxInvoice "" "" "" RowStatus.Ready false true
    "/w/INV-1.pdf" "INV-1" "aa" 1

/-- Second row of the C2 witness collision group. -/
def rowB : RowModel :=
  RowModel.mk "r2" "INV-1" FileType.TaxInvoice "" "" "" RowStatus.Ready true true
    "/w/INV-1__2.pdf" "INV-1" "bb" 2

/-- Witness for C2 at a concrete two-row collision group. -/
theorem C2_collision_group_status_witness :
    canonName "inv-1" = "inv-1" ∧
    2 ≤ (([rowA, rowB]).filter (fun r =>
      inGroup "inv-1" r ∧ ¬ r.status = RowStatus.Processed)).length ∧
    (∀ r1 ∈ enforce_display_name_group_status [rowA, rowB] "inv-1",
      inGroup "inv-1" r1 = true →
        r1.status = RowStatus.Review ∧ r1.checkbox_enabled = false ∧
        r1.checked = false) :=
  ⟨by decide, by decide,
   (C2_collision_group_status [rowA, rowB] "inv-1" (by decide) (by decide)
      (by decide)).1 (by decide)⟩

/-! ## Claim C4: `add_row_from_phase1_result` on a fresh `processed` result -/

/-- The empty initial ledger. -/
def ledger0 : LedgerState := LedgerState.mk [] [] 1 []

/-- A fresh `processed` identity result: new fingerprint, new path, valid
document number and type. -/
def resC4 : Phase1Result :=
  Phase1Result.mk 1 "/w/a.pdf"
    "aaaaaaaaaaaaaaaaaaaaaaaaaaaaaaaaaaaaaaaaaaaaaaaaaaaaaaaaaaaaaaaa"
    "INV-1" FileType.TaxInvoice "/w/INV-1.pdf" Phase1Kind.processed

/-- C4 (code bug).  For a `processed` result with a fresh fingerprint and a
fresh path, `add_row_from_phase1_result` reaches the `RowModel(...)` call with
keyword arguments `display_name`, `fingerprint_sha256` and `origin_seq` that
the dataclass declared in `row_model.py` (lines 22–34) does not accept, so the
call raises `TypeError` instead of appending a row and returning `True`:
evaluated here on a concrete fresh result against the empty ledger. -/
theorem C4_add_row_raises_type_error :
    resC4.kind = Phase1Kind.processed ∧
    ¬ resC4.fingerprint_sha256 ∈ ledger0.known_fingerprints ∧
    ¬ normalizePath resC4.original_path ∈ ledger0.phase1_completed_paths ∧
    "display_name" ∈ addRowRowKwargNames ∧
    ¬ "display_name" ∈ rowModelDataclassFields ∧
    add_row_from_phase1_result ledger0 resC4 =
      Except.error "TypeError: RowModel.__init__ got an unexpected keyword argument" := by
  refine ⟨rfl, by decide, by decide, by decide, by decide, ?_⟩
  rfl

/-! ## Claim C6: watcher stability debounce -/

/-- Two consecutive observations disagree in size or mtime. -/
def obsDiff (a b : ScanObs) : Prop :=
  ¬ (a.size = b.size ∧ a.mtime_ns = b.mtime_ns)

/-- A changing file's record evolution: after recording `o`, every further
scan whose observation differs from its last one keeps ticks at zero and
never emits (requires `required ≥ 1`). -/
theorem scanRun_changing_aux (required : Nat) (hreq : 1 ≤ required) :
    ∀ (obs : List ScanObs) (o : ScanObs), List.Chain' obsDiff (o :: obs) →
      (scanRunFile required (some (SeenFileRec.mk o.size o.mtime_ns 0 false)) obs).2 =
        List.replicate obs.length false := by
  intro obs
  induction obs with
  | nil => intro o _; rfl
  | cons o2 os ih =>
    intro o hch
    rcases List.chain'_cons.mp hch with ⟨hd, hch2⟩
    have hstep : scanStepFile required (some (SeenFileRec.mk o.size o.mtime_ns 0 false)) o2 =
        (some (SeenFileRec.mk o2.size o2.mtime_ns 0 false), false) := by
      have h0 : ¬ required ≤ 0 := by omega
      have hd2 : ¬ (o.size = o2.size ∧ o.mtime_ns = o2.mtime_ns) := hd
      simp [scanStepFile, scanStepEmit, hd2, h0]
    simp only [scanRunFile, hstep]
    rw [List.length_cons, List.replicate_succ]
    exact congrArg (List.cons false) (ih o2 hch2)

/-- Once the record is marked emitted, identical further observations never
emit again. -/
theorem scanRun_emitted (required : Nat) (sz : Nat) (mt : Int) (q : Bool) :
    ∀ (n : Nat) (t : Nat),
      (scanRunFile required (some (SeenFileRec.mk sz mt t true))
        (List.replicate n (ScanObs.mk sz mt q))).2 = List.replicate n false := by
  intro n
  induction n with
  | zero => intro t; rfl
  | succ m ih =>
    intro t
    have hstep : scanStepFile required (some (SeenFileRec.mk sz mt t true)) (ScanObs.mk sz mt q) =
        (some (SeenFileRec.mk sz mt (t + 1) true), false) := by
      simp [scanStepFile, scanStepEmit]
    rw [List.replicate_succ]
    simp only [scanRunFile, hstep]
    rw [List.replicate_succ]
    exact congrArg (List.cons false) (ih (t + 1))

/-- From a freshly reset record, `n ≥ required` identical accepted
observations emit exactly once, on the scan whose consecutive-unchanged count
reaches `required`. -/
theorem scanRun_stable_aux (required : Nat) (sz : Nat) (mt : Int) :
    ∀ (n t : Nat), t < required → required - t ≤ n →
      (scanRunFile required (some (SeenFileRec.mk sz mt t false))
        (List.replicate n (ScanObs.mk sz mt true))).2 =
        List.replicate (required - t - 1) false ++
          true :: List.replicate (n - (required - t)) false := by
  intro n
  induction n with
  | zero => intro t ht hn; omega
  | succ m ih =>
    intro t ht hn
    by_cases hreach : required ≤ t + 1
    · have hstep : scanStepFile required (some (SeenFileRec.mk sz mt t false)) (ScanObs.mk sz mt true) =
          (some (SeenFileRec.mk sz mt (t + 1) true), true) := by
        simp [scanStepFile, scanStepEmit, hreach]
      rw [List.replicate_succ]
      simp only [scanRunFile, hstep]
      have hrt : required - t - 1 = 0 := by omega
      have hrt2 : m + 1 - (required - t) = m := by omega
      rw [hrt, hrt2, List.replicate]
      simp only [List.nil_append]
      exact congrArg (List.cons true) (scanRun_emitted required sz mt true m (t + 1))
    · have hstep : scanStepFile required (some (SeenFileRec.mk sz mt t false)) (ScanObs.mk sz mt true) =
          (some (SeenFileRec.mk sz mt (t + 1) false), false) := by
        simp [scanStepFile, scanStepEmit, hreach]
      rw [List.replicate_succ]
      simp only [scanRunFile, hstep]
      have h1 : required - t - 1 = (required - (t + 1) - 1) + 1 := by omega
      have h2 : m + 1 - (required - t) = m - (required - (t + 1)) := by omega
      rw [h1, h2, List.replicate_succ, List.cons_append]
      exact congrArg (List.cons false) (ih (t + 1) (by omega) (by omega))

/-- C6.  Watcher debounce for one tracked PDF: (i) a file whose observation
differs on every pair of consecutive scans is never pushed; (ii) a file that
is unchanged from a fresh/just-changed record onward is pushed exactly once,
on the scan at which its consecutive-unchanged count reaches
`required_stable_ticks`, when the queue accepts; (iii) if the push fails
because the queue is full the record is not marked emitted, and the next
accepted identical scan pushes it. -/
theorem C6_watcher_debounce (required : Nat) (hreq : 1 ≤ required) :
    (∀ obs : List ScanObs, List.Chain' obsDiff obs →
      (scanRunFile required none obs).2 = List.replicate obs.length false) ∧
    (∀ (sz : Nat) (mt : Int) (n : Nat), required ≤ n →
      (scanRunFile required (some (SeenFileRec.mk sz mt 0 false))
        (List.replicate n (ScanObs.mk sz mt true))).2 =
        List.replicate (required - 1) false ++
          true :: List.replicate (n - required) false) ∧
    (∀ (sz : Nat) (mt : Int) (t : Nat), required ≤ t + 1 →
      scanStepFile required (some (SeenFileRec.mk sz mt t false)) (ScanObs.mk sz mt false) =
        (some (SeenFileRec.mk sz mt (t + 1) false), false) ∧
      scanStepFile required (some (SeenFileRec.mk sz mt (t + 1) false)) (ScanObs.mk sz mt true) =
        (some (SeenFileRec.mk sz mt (t + 2) true), true)) := by
  refine ⟨?_, ?_, ?_⟩
  · intro obs hch
    cases obs with
    | nil => rfl
    | cons o os =>
      have hstep : scanStepFile required none o =
          (some (SeenFileRec.mk o.size o.mtime_ns 0 false), false) := rfl
      simp only [scanRunFile, hstep]
      rw [List.length_cons, List.replicate_succ]
      exact congrArg (List.cons false) (scanRun_changing_aux required hreq os o hch)
  · intro sz mt n hn
    have := scanRun_stable_aux required sz mt n 0 (by omega) (by omega)
    simpa using this
  · intro sz mt t ht
    constructor
    · simp [scanStepFile, scanStepEmit, ht]
    · have h2 : required ≤ t + 1 + 1 := by omega
      simp [scanStepFile, scanStepEmit, h2]

/-- Witness for C6 at `required_stable_ticks = 2` (the default) with four
identical accepted scans: the single push happens on the second scan. -/
theorem C6_watcher_debounce_witness :
    (1 : Nat) ≤ 2 ∧ (2 : Nat) ≤ 4 ∧
    (scanRunFile 2 (some (SeenFileRec.mk 10 5 0 false))
      (List.replicate 4 (ScanObs.mk 10 5 true))).2 =
      List.replicate 1 false ++ true :: List.replicate 2 false :=
  ⟨by decide, by decide,
   (C6_watcher_debounce 2 (by decide)).2.1 10 5 4 (by decide)⟩

/-! ## Worker lemmas: the duplicate branch -/

theorem lookupFp_setFp_self (fp p : String) :
    ∀ m : List (String × String), lookupFp (setFp m fp p) fp = some p := by
  intro m
  induction m with
  | nil => simp [setFp, lookupFp]
  | cons kv rest ih =>
    by_cases h : kv.1 = fp
    · simp [setFp, lookupFp, h]
    · simp [setFp, lookupFp, h, ih]

/-- Dispatch: an existing path whose hash is an already-seen fingerprint
enters the duplicate branch. -/
theorem processItem_dup_dispatch (ws : WorkerState) (env : FsEnv) (b : Nat)
    (orig fp : String) (horig : ¬ orig = "") (hex : env.existsOrig = true)
    (hh : env.hashOrig = some fp) (hseen : fp ∈ ws.seen_fingerprints) :
    processItem ws env b orig = some (processDuplicate ws env b orig fp) := by
  simp [processItem, normalizePath, horig, hex, hh, hseen]

/-- Every exit of the duplicate branch stores the same `duplicate_skipped`
result, touches no rename attempt, never calls the classifier, and leaves the
seen-set unchanged. -/
theorem processDuplicate_const (ws : WorkerState) (env : FsEnv) (b : Nat)
    (orig fp : String) :
    (processDuplicate ws env b orig fp).2.2 = some (dupSkippedResult b orig fp) ∧
    (processDuplicate ws env b orig fp).2.1.renameAttempts = [] ∧
    (processDuplicate ws env b orig fp).2.1.classified = false ∧
    (processDuplicate ws env b orig fp).1.seen_fingerprints = ws.seen_fingerprints := by
  rcases henv2 : env.hashOrig2 with _ | cv
  · simp [processDuplicate, henv2, emptyLog]
  · rcases henc : env.hashCanon with _ | canv
    · simp [processDuplicate, henv2, henc, emptyLog]
    · simp only [processDuplicate, henv2, henc]
      split_ifs <;> simp [emptyLog]

/-- If any duplicate-safety guard fails, no quarantine move happens. -/
theorem processDuplicate_no_move (ws : WorkerState) (env : FsEnv) (b : Nat)
    (orig fp : String) (hfail : ¬ dupGuards ws env orig fp) :
    (processDuplicate ws env b orig fp).2.1.moves = [] := by
  rcases henv2 : env.hashOrig2 with _ | cv
  · simp [processDuplicate, henv2, emptyLog]
  · rcases henc : env.hashCanon with _ | canv
    · simp [processDuplicate, henv2, henc, emptyLog]
    · have hd : canv = fp → env.hashCanon = some fp :=
        fun h => henc.trans (congrArg some h)
      have he : cv = fp → env.hashOrig2 = some fp :=
        fun h => henv2.trans (congrArg some h)
      by_cases hwf : wellFormedFp fp = true <;>
        by_cases h1 : canonicalNormOf ws fp = "" <;>
        by_cases h2 : orig = canonicalNormOf ws fp <;>
        by_cases hex1 : env.existsCanon1 = true <;>
        by_cases hex2 : env.existsCanon2 = true <;>
        by_cases hcv : cv = fp <;>
        by_cases hcanv : canv = fp <;>
        first
          | (exfalso
             apply hfail
             refine ⟨?_, ⟨?_, ?_⟩, ⟨?_, ?_⟩, hd ?_, he ?_⟩ <;> assumption)
          | simp [processDuplicate, henv2, henc, emptyLog,
              hwf, h1, h2, hex1, hex2, hcv, hcanv]

/-- A non-empty `canonical_norm` is exactly the recorded canonical path. -/
theorem lookup_eq_canonicalNorm (ws : WorkerState) (fp : String)
    (h1 : ¬ canonicalNormOf ws fp = "") :
    lookupFp ws.canonical_path_by_fp fp = some (canonicalNormOf ws fp) := by
  rcases hl : lookupFp ws.canonical_path_by_fp fp with _ | c0
  · exact absurd (by simp [canonicalNormOf, hl]) h1
  · by_cases hc0 : c0 = ""
    · exact absurd (by simp [canonicalNormOf, hl, hc0]) h1
    · have hval : canonicalNormOf ws fp = c0 := by
        simp [canonicalNormOf, hl, hc0, normalizePath]
      rw [hval]

/-- Self-heal, part 1: with no recorded canonical, a canonical equal to the
current path, or a failed first existence check, the mapping afterwards
points at the current path. -/
theorem processDuplicate_heal1 (ws : WorkerState) (env : FsEnv) (b : Nat)
    (orig fp : String)
    (hcase : canonicalNormOf ws fp = "" ∨ orig = canonicalNormOf ws fp ∨
      env.existsCanon1 = false) :
    lookupFp (processDuplicate ws env b orig fp).1.canonical_path_by_fp fp =
      some orig := by
  rcases henv2 : env.hashOrig2 with _ | cv
  · rcases hcase with hc | hc | hc
    · simp only [processDuplicate, henv2]
      split_ifs <;> simp_all [lookupFp_setFp_self]
    · by_cases h1 : canonicalNormOf ws fp = ""
      · simp only [processDuplicate, henv2]
        split_ifs <;> simp_all [lookupFp_setFp_self]
      · have hlook := lookup_eq_canonicalNorm ws fp h1
        simp only [processDuplicate, henv2]
        split_ifs <;> simp_all [lookupFp_setFp_self]
    · by_cases h1 : canonicalNormOf ws fp = ""
      · simp only [processDuplicate, henv2]
        split_ifs <;> simp_all [lookupFp_setFp_self]
      · simp only [processDuplicate, henv2]
        split_ifs <;> simp_all [lookupFp_setFp_self]
  · rcases henc : env.hashCanon with _ | canv
    · simp only [processDuplicate, henv2, henc]
      split_ifs <;> simp only [lookupFp_setFp_self]
    · rcases hcase with hc | hc | hc
      · simp only [processDuplicate, henv2, henc]
        split_ifs <;> simp_all [lookupFp_setFp_self]
      · simp only [processDuplicate, henv2, henc]
        split_ifs <;> simp_all [lookupFp_setFp_self]
      · by_cases h1 : canonicalNormOf ws fp = ""
        · simp only [processDuplicate, henv2, henc]
          split_ifs <;> simp_all [lookupFp_setFp_self]
        · simp only [processDuplicate, henv2, henc]
          split_ifs <;> simp_all [lookupFp_setFp_self]

/-- Self-heal, part 2: when the current path's re-hash returned and either
the canonical's second existence check failed or re-hashing the canonical did
not yield the fingerprint, the mapping afterwards points at the current
path. -/
theorem processDuplicate_heal2 (ws : WorkerState) (env : FsEnv) (b : Nat)
    (orig fp cv : String) (hv : env.hashOrig2 = some cv)
    (hcase : env.existsCanon2 = false ∨ ¬ env.hashCanon = some fp) :
    lookupFp (processDuplicate ws env b orig fp).1.canonical_path_by_fp fp =
      some orig := by
  rcases henc : env.hashCanon with _ | canv
  · simp only [processDuplicate, hv, henc]
    split_ifs <;> simp only [lookupFp_setFp_self]
  · rcases hcase with hc | hc
    · simp only [processDuplicate, hv, henc]
      split_ifs <;> simp_all [lookupFp_setFp_self]
    · have hcanv : ¬ canv = fp := fun h => hc (henc.trans (congrArg some h))
      simp only [processDuplicate, hv, henc]
      split_ifs <;> simp_all [lookupFp_setFp_self]

/-- No self-heal: with a healthy, distinct canonical (guards (b), (c) hold as
far as they are checked) and either a raising current-path re-hash or a
canonical re-hash matching the fingerprint, the whole canonical map is left
unchanged. -/
theorem processDuplicate_no_heal (ws : WorkerState) (env : FsEnv) (b : Nat)
    (orig fp : String)
    (hB1 : ¬ canonicalNormOf ws fp = "") (hB2 : ¬ orig = canonicalNormOf ws fp)
    (hex1 : env.existsCanon1 = true)
    (hrest : env.hashOrig2 = none ∨
      (env.existsCanon2 = true ∧ env.hashCanon = some fp)) :
    (processDuplicate ws env b orig fp).1.canonical_path_by_fp =
      ws.canonical_path_by_fp := by
  rcases henv2 : env.hashOrig2 with _ | cv
  · simp only [processDuplicate, henv2]
    split_ifs <;> simp_all
  · rcases hrest with hr | ⟨hex2, hd⟩
    · rw [henv2] at hr
      cases hr
    · rcases henc : env.hashCanon with _ | canv
      · rw [henc] at hd
        cases hd
      · have hcanv : canv = fp := Option.some.inj ((henc.symm).trans hd)
        simp only [processDuplicate, henv2, henc]
        split_ifs <;> simp_all

/-! ## Claim C1 (corrected): duplicate-guard failure handling -/

/-- C1, amended.  For a dequeued path whose fingerprint is already in the
seen-set, if any of the five guards (a)–(e) fails, the worker performs no
filesystem move, stores a `duplicate_skipped` result with `doc_no "!"` and
`file_type Unknown` for that `(batchId, path)`, never consults the classifier
and leaves the seen-set unchanged; the canonical-path mapping afterwards
points at the current path when guard (b) fails, the first existence check of
(c) fails, or the current-path re-hash returned and the second existence
check of (c) or guard (d) fails — but when (b), (c) hold and the failure is
only in (a) or in (e) (mismatching or raising current-path re-hash, with a
canonical re-hash matching the fingerprint), the mapping keeps its previous
value instead of pointing at the current path. -/
theorem C1_duplicate_guard_failure (ws : WorkerState) (env : FsEnv) (b : Nat)
    (orig fp : String)
    (horig : ¬ orig = "") (hex : env.existsOrig = true)
    (hh : env.hashOrig = some fp) (hseen : fp ∈ ws.seen_fingerprints)
    (hfail : ¬ dupGuards ws env orig fp) :
    processItem ws env b orig = some (processDuplicate ws env b orig fp) ∧
    (processDuplicate ws env b orig fp).2.1.moves = [] ∧
    (processDuplicate ws env b orig fp).2.1.renameAttempts = [] ∧
    (processDuplicate ws env b orig fp).2.1.classified = false ∧
    (processDuplicate ws env b orig fp).2.2 = some (dupSkippedResult b orig fp) ∧
    (processDuplicate ws env b orig fp).1.seen_fingerprints = ws.seen_fingerprints ∧
    ((canonicalNormOf ws fp = "" ∨ orig = canonicalNormOf ws fp ∨
        env.existsCanon1 = false) →
      lookupFp (processDuplicate ws env b orig fp).1.canonical_path_by_fp fp =
        some orig) ∧
    (∀ cv, env.hashOrig2 = some cv →
      (env.existsCanon2 = false ∨ ¬ env.hashCanon = some fp) →
      lookupFp (processDuplicate ws env b orig fp).1.canonical_path_by_fp fp =
        some orig) ∧
    (¬ canonicalNormOf ws fp = "" → ¬ orig = canonicalNormOf ws fp →
      env.existsCanon1 = true →
      (env.hashOrig2 = none ∨ (env.existsCanon2 = true ∧ env.hashCanon = some fp)) →
      (processDuplicate ws env b orig fp).1.canonical_path_by_fp =
        ws.canonical_path_by_fp) :=
  ⟨processItem_dup_dispatch ws env b orig fp horig hex hh hseen,
   processDuplicate_no_move ws env b orig fp hfail,
   (processDuplicate_const ws env b orig fp).2.1,
   (processDuplicate_const ws env b orig fp).2.2.1,
   (processDuplicate_const ws env b orig fp).1,
   (processDuplicate_const ws env b orig fp).2.2.2,
   fun hc => processDuplicate_heal1 ws env b orig fp hc,
   fun cv hv hc => processDuplicate_heal2 ws env b orig fp cv hv hc,
   fun hB1 hB2 hex1 hrest => processDuplicate_no_heal ws env b orig fp hB1 hB2 hex1 hrest⟩

/-- A 64-hex fingerprint used by concrete worker states. -/
def fpA : String :=
  "aaaaaaaaaaaaaaaaaaaaaaaaaaaaaaaaaaaaaaaaaaaaaaaaaaaaaaaaaaaaaaaa"

/-- A second, different 64-hex fingerprint. -/
def fpB : String :=
  "bbbbbbbbbbbbbbbbbbbbbbbbbbbbbbbbbbbbbbbbbbbbbbbbbbbbbbbbbbbbbbbb"

/-- Worker state with `fpA` seen and canonically mapped to `/w/c.pdf`. -/
def wsX : WorkerState := WorkerState.mk [fpA] [(fpA, "/w/c.pdf")]

/-- Environment where only guard (e) fails: the canonical file is healthy
and re-hashes to `fpA`, but re-hashing the current path yields `fpB`
(the file changed between the two hash calls). -/
def envX : FsEnv :=
  FsEnv.mk true (some fpA) true (some fpB) true (some fpA) true "/w/quarantine/a.pdf"
    "" FileType.Unknown [] 4 true true

/-- Counterexample to C1 as stated: at `wsX`/`envX` a guard fails and a
`duplicate_skipped` result is stored, yet the canonical mapping afterwards
still points at the old canonical path `/w/c.pdf`, not at the current path
`/w/a.pdf`. -/
theorem C1_duplicate_guard_failure_counterexample :
    fpA ∈ wsX.seen_fingerprints ∧
    ¬ dupGuards wsX envX "/w/a.pdf" fpA ∧
    processItem wsX envX 1 "/w/a.pdf" =
      some (processDuplicate wsX envX 1 "/w/a.pdf" fpA) ∧
    (processDuplicate wsX envX 1 "/w/a.pdf" fpA).2.2 =
      some (dupSkippedResult 1 "/w/a.pdf" fpA) ∧
    lookupFp (processDuplicate wsX envX 1 "/w/a.pdf" fpA).1.canonical_path_by_fp fpA =
      some "/w/c.pdf" ∧
    ¬ ("/w/c.pdf" = "/w/a.pdf") := by
  refine ⟨by decide, ?_, by decide, by decide, by decide, by decide⟩
  intro h
  exact absurd h.2.2.2.2 (by decide)

/-- Environment where guard (c) fails at the first stat call (used by the C1
witness). -/
def envW : FsEnv :=
  FsEnv.mk true (some fpA) false (some fpA) false none true "/w/quarantine/a.pdf"
    "" FileType.Unknown [] 4 true true

/-- Witness for C1 (amended) at a concrete state: guard (c) fails, so the
result is `duplicate_skipped`, nothing moves, and the mapping self-heals to
the current path. -/
theorem C1_duplicate_guard_failure_witness :
    ¬ ("/w/a.pdf" : String) = "" ∧ fpA ∈ wsX.seen_fingerprints ∧
    ¬ dupGuards wsX envW "/w/a.pdf" fpA ∧
    (processDuplicate wsX envW 1 "/w/a.pdf" fpA).2.1.moves = [] := by
  have hfail : ¬ dupGuards wsX envW "/w/a.pdf" fpA := by
    intro h
    exact absurd h.2.2.1.1 (by decide)
  exact ⟨by decide, by decide, hfail,
    (C1_duplicate_guard_failure wsX envW 1 "/w/a.pdf" fpA (by decide) (by decide)
      (by decide) (by decide) hfail).2.1⟩

/-! ## Claim C3 (corrected): stale canonical self-heal -/

/-- C3, amended.  If a path's fingerprint is already in the seen-set but the
recorded canonical path for that fingerprint no longer exists on disk, the
hit is *not* treated as first-seen: the file is not quarantined (no
filesystem move), the external classifier is not consulted, no rename is
attempted, and the stored result has kind `duplicate_skipped` with sentinel
identity; the canonical-path mapping afterwards points at the current
path (it becomes the new canonical). -/
theorem C3_stale_canonical_self_heal (ws : WorkerState) (env : FsEnv) (b : Nat)
    (orig fp c : String)
    (horig : ¬ orig = "") (hex : env.existsOrig = true)
    (hh : env.hashOrig = some fp) (hseen : fp ∈ ws.seen_fingerprints)
    (hcanon : lookupFp ws.canonical_path_by_fp fp = some c) (hcne : ¬ c = "")
    (hgone1 : env.existsCanon1 = false) (hgone2 : env.existsCanon2 = false) :
    processItem ws env b orig = some (processDuplicate ws env b orig fp) ∧
    (processDuplicate ws env b orig fp).2.1.moves = [] ∧
    (processDuplicate ws env b orig fp).2.1.renameAttempts = [] ∧
    (processDuplicate ws env b orig fp).2.1.classified = false ∧
    (processDuplicate ws env b orig fp).2.2 = some (dupSkippedResult b orig fp) ∧
    (processDuplicate ws env b orig fp).1.seen_fingerprints = ws.seen_fingerprints ∧
    lookupFp (processDuplicate ws env b orig fp).1.canonical_path_by_fp fp =
      some orig := by
  have hfail : ¬ dupGuards ws env orig fp := by
    intro h
    rw [h.2.2.1.1] at hgone1
    exact Bool.noConfusion hgone1
  exact ⟨processItem_dup_dispatch ws env b orig fp horig hex hh hseen,
    processDuplicate_no_move ws env b orig fp hfail,
    (processDuplicate_const ws env b orig fp).2.1,
    (processDuplicate_const ws env b orig fp).2.2.1,
    (processDuplicate_const ws env b orig fp).1,
    (processDuplicate_const ws env b orig fp).2.2.2,
    processDuplicate_heal1 ws env b orig fp (Or.inr (Or.inr hgone1))⟩

/-- Environment for the C3 scenario: the canonical path is gone (both stat
calls fail) and re-hashing it raises; the current path re-hashes fine. -/
def envY : FsEnv :=
  FsEnv.mk true (some fpA) false (some fpA) false none true "/w/quarantine/a.pdf"
    "INV-9" FileType.TaxInvoice [] 4 true true

/-- Counterexample to C3 as stated: with the canonical gone, the result kind
is `duplicate_skipped`, not `processed`, the classifier is never consulted
and no rename is attempted. -/
theorem C3_stale_canonical_self_heal_counterexample :
    fpA ∈ wsX.seen_fingerprints ∧
    lookupFp wsX.canonical_path_by_fp fpA = some "/w/c.pdf" ∧
    envY.existsCanon1 = false ∧ envY.existsCanon2 = false ∧
    processItem wsX envY 1 "/w/a.pdf" =
      some (processDuplicate wsX envY 1 "/w/a.pdf" fpA) ∧
    (processDuplicate wsX envY 1 "/w/a.pdf" fpA).2.2 =
      some (dupSkippedResult 1 "/w/a.pdf" fpA) ∧
    (processDuplicate wsX envY 1 "/w/a.pdf" fpA).2.1.classified = false ∧
    (processDuplicate wsX envY 1 "/w/a.pdf" fpA).2.1.renameAttempts = [] ∧
    ¬ ((dupSkippedResult 1 "/w/a.pdf" fpA).kind = Phase1Kind.processed) := by
  decide

/-- Witness for C3 (amended) at a concrete state. -/
theorem C3_stale_canonical_self_heal_witness :
    fpA ∈ wsX.seen_fingerprints ∧ envY.existsCanon1 = false ∧
    lookupFp (processDuplicate wsX envY 1 "/w/a.pdf" fpA).1.canonical_path_by_fp fpA =
      some "/w/a.pdf" :=
  ⟨by decide, by decide,
   (C3_stale_canonical_self_heal wsX envY 1 "/w/a.pdf" fpA "/w/c.pdf" (by decide)
      (by decide) (by decide) (by decide) (by decide) (by decide) (by decide)
      (by decide)).2.2.2.2.2.2⟩

/-! ## Claim C5 (corrected): rename targeting and fallback -/

/-- The search loop finds the first free candidate index at or after its
starting index. -/
theorem findFreeIdx_spec (fs : List String) (dir base ext : String) :
    ∀ (fuel k0 k : Nat), findFreeIdx fs dir base ext fuel k0 = some k →
      k0 ≤ k ∧ ¬ joinPath dir (candName base ext k) ∈ fs ∧
      ∀ j, k0 ≤ j → j < k → joinPath dir (candName base ext j) ∈ fs := by
  intro fuel
  induction fuel with
  | zero => intro k0 k h; cases h
  | succ f ih =>
    intro k0 k h
    simp only [findFreeIdx] at h
    by_cases hm : joinPath dir (candName base ext k0) ∈ fs
    · rw [if_pos hm] at h
      rcases ih (k0 + 1) k h with ⟨hle, hfree, hall⟩
      refine ⟨by omega, hfree, fun j hj1 hj2 => ?_⟩
      by_cases hje : j = k0
      · exact hje ▸ hm
      · exact hall j (by omega) hj2
    · rw [if_neg hm] at h
      cases h
      exact ⟨le_refl _, hm, fun j hj1 hj2 => absurd hj2 (by omega)⟩

/-- Dispatch: an existing path with an unseen fingerprint enters the
first-seen branch. -/
theorem processItem_first_seen_dispatch (ws : WorkerState) (env : FsEnv) (b : Nat)
    (orig fp : String) (horig : ¬ orig = "") (hex : env.existsOrig = true)
    (hh : env.hashOrig = some fp) (hnew : ¬ fp ∈ ws.seen_fingerprints) :
    processItem ws env b orig = processFirstSeen ws env b orig fp := by
  simp [processItem, normalizePath, horig, hex, hh, hnew]

/-- The first-seen branch when the preferred (document-number) rename fails:
the fallback target is attempted, the identity fields are forced to the
sentinel, and if the fallback also fails the file stays at its original
path. -/
theorem processFirstSeen_fallback (ws : WorkerState) (env : FsEnv) (b : Nat)
    (orig fp preferred fallback : String)
    (hdoc : ¬ phase1DocNo env = "!")
    (hpref : chooseCollisionFreePath env.fsPaths env.chooseFuel (pyDirname orig)
      (phase1SafeStem env) ".pdf" = some preferred)
    (hfall : chooseCollisionFreePath env.fsPaths env.chooseFuel (pyDirname orig)
      ("!__" ++ pyTake fp 12) ".pdf" = some fallback)
    (hprefne : ¬ preferred = orig)
    (hfailA : env.renamePreferredOk = false) :
    processFirstSeen ws env b orig fp =
      some
        (WorkerState.mk (listInsert fp ws.seen_fingerprints)
          (setFp ws.canonical_path_by_fp fp
            (if fallback = orig then orig
             else if env.renameFallbackOk = true then fallback else orig)),
         ProcLog.mk
           (if fallback = orig then []
            else if env.renameFallbackOk = true then [(orig, fallback)] else [])
           [(preferred, false),
            (fallback, if fallback = orig then true else env.renameFallbackOk)]
           true,
         some (Phase1Result.mk b orig fp "!" FileType.Unknown
           (if fallback = orig then orig
            else if env.renameFallbackOk = true then fallback else orig)
           Phase1Kind.processed)) := by
  by_cases hfo : fallback = orig <;> by_cases hok : env.renameFallbackOk = true <;>
    simp [processFirstSeen, attemptRename, normalizePath,
      hdoc, hpref, hfall, hprefne, hfailA, hfo, hok]

/-- The first-seen branch when no document number was extracted and the
single (sentinel-named) rename attempt fails: the file stays in place with
sentinel identity. -/
theorem processFirstSeen_sentinel_fail (ws : WorkerState) (env : FsEnv) (b : Nat)
    (orig fp fallback : String)
    (hdoc : phase1DocNo env = "!")
    (hfall : chooseCollisionFreePath env.fsPaths env.chooseFuel (pyDirname orig)
      ("!__" ++ pyTake fp 12) ".pdf" = some fallback)
    (hfo : ¬ fallback = orig) (hok : env.renameFallbackOk = false) :
    processFirstSeen ws env b orig fp =
      some
        (WorkerState.mk (listInsert fp ws.seen_fingerprints)
          (setFp ws.canonical_path_by_fp fp orig),
         ProcLog.mk [] [(fallback, false)] true,
         some (Phase1Result.mk b orig fp "!" FileType.Unknown orig
           Phase1Kind.processed)) := by
  simp [processFirstSeen, attemptRename, normalizePath, hdoc, hfall, hfo, hok]

/-- C5, amended.  For a first-seen file: any successful collision-free search
returns the first free name of the sequence `stem.pdf`, `stem__2.pdf`,
`stem__3.pdf`, …; if the rename to the document-number target fails, the
worker attempts the fallback name built from the stem `"!__"` followed by the
first 12 characters of the fingerprint (not `"!"` directly followed by
them); whenever any rename attempt fails the stored result's identity fields
are forced to `doc_no "!"` and `file_type Unknown`; and if both attempts fail
(or the only, sentinel-named attempt fails) the result's renamed path equals
the original path. -/
theorem C5_rename_fallback_behavior :
    (∀ (fs : List String) (fuel : Nat) (dirPath stem ext t : String),
      chooseCollisionFreePath fs fuel dirPath stem ext = some t →
      ∃ k, t = joinPath dirPath
          (candName (if sanitizeStem stem = "" then "!" else sanitizeStem stem) ext k) ∧
        ¬ t ∈ fs ∧
        ∀ j < k, joinPath dirPath
          (candName (if sanitizeStem stem = "" then "!" else sanitizeStem stem) ext j) ∈ fs) ∧
    (∀ (ws : WorkerState) (env : FsEnv) (b : Nat) (orig fp preferred fallback : String),
      ¬ phase1DocNo env = "!" →
      chooseCollisionFreePath env.fsPaths env.chooseFuel (pyDirname orig)
        (phase1SafeStem env) ".pdf" = some preferred →
      chooseCollisionFreePath env.fsPaths env.chooseFuel (pyDirname orig)
        ("!__" ++ pyTake fp 12) ".pdf" = some fallback →
      ¬ preferred = orig → env.renamePreferredOk = false →
      processFirstSeen ws env b orig fp =
        some
          (WorkerState.mk (listInsert fp ws.seen_fingerprints)
            (setFp ws.canonical_path_by_fp fp
              (if fallback = orig then orig
               else if env.renameFallbackOk = true then fallback else orig)),
           ProcLog.mk
             (if fallback = orig then []
              else if env.renameFallbackOk = true then [(orig, fallback)] else [])
             [(preferred, false),
              (fallback, if fallback = orig then true else env.renameFallbackOk)]
             true,
           some (Phase1Result.mk b orig fp "!" FileType.Unknown
             (if fallback = orig then orig
              else if env.renameFallbackOk = true then fallback else orig)
             Phase1Kind.processed))) ∧
    (∀ (ws : WorkerState) (env : FsEnv) (b : Nat) (orig fp fallback : String),
      phase1DocNo env = "!" →
      chooseCollisionFreePath env.fsPaths env.chooseFuel (pyDirname orig)
        ("!__" ++ pyTake fp 12) ".pdf" = some fallback →
      ¬ fallback = orig → env.renameFallbackOk = false →
      processFirstSeen ws env b orig fp =
        some
          (WorkerState.mk (listInsert fp ws.seen_fingerprints)
            (setFp ws.canonical_path_by_fp fp orig),
           ProcLog.mk [] [(fallback, false)] true,
           some (Phase1Result.mk b orig fp "!" FileType.Unknown orig
             Phase1Kind.processed))) := by
  refine ⟨?_, ?_, ?_⟩
  · intro fs fuel dirPath stem ext t h
    simp only [chooseCollisionFreePath, Option.map_eq_some'] at h
    rcases h with ⟨k, hfind, rfl⟩
    rcases findFreeIdx_spec fs dirPath _ ext fuel 0 k hfind with ⟨_, hfree, hall⟩
    exact ⟨k, rfl, hfree, fun j hj => hall j (Nat.zero_le j) hj⟩
  · intro ws env b orig fp preferred fallback hdoc hpref hfall hprefne hfailA
    exact processFirstSeen_fallback ws env b orig fp preferred fallback hdoc hpref
      hfall hprefne hfailA
  · intro ws env b orig fp fallback hdoc hfall hfo hok
    exact processFirstSeen_sentinel_fail ws env b orig fp fallback hdoc hfall hfo hok

/-- Fresh worker state (nothing seen). -/
def ws0 : WorkerState := WorkerState.mk [] []

/-- First-seen environment: document number `INV-1` extracted, empty
directory, preferred rename fails, fallback rename succeeds. -/
def envZ : FsEnv :=
  FsEnv.mk true (some fpA) true none true none true ""
    "INV-1" FileType.TaxInvoice [] 4 false true

/-- Counterexample to C5 as stated: when the document-number rename fails,
the fallback target actually attempted is `/w/!__aaaaaaaaaaaa.pdf` (stem
`"!__"` plus the first 12 fingerprint characters); the name formed by `"!"`
directly followed by the first 12 fingerprint characters,
`/w/!aaaaaaaaaaaa.pdf`, is never attempted. -/
theorem C5_rename_fallback_counterexample :
    (processItem ws0 envZ 1 "/w/a.pdf").map (fun r => r.2.1.renameAttempts) =
      some [("/w/INV-1.pdf", false), ("/w/!__aaaaaaaaaaaa.pdf", true)] ∧
    joinPath "/w" ("!" ++ pyTake fpA 12 ++ ".pdf") = "/w/!aaaaaaaaaaaa.pdf" ∧
    ¬ ("/w/!aaaaaaaaaaaa.pdf", false) ∈
        [("/w/INV-1.pdf", false), ("/w/!__aaaaaaaaaaaa.pdf", true)] ∧
    ¬ ("/w/!aaaaaaaaaaaa.pdf", true) ∈
        [("/w/INV-1.pdf", false), ("/w/!__aaaaaaaaaaaa.pdf", true)] ∧
    (processItem ws0 envZ 1 "/w/a.pdf").map (fun r => r.2.2) =
      some (some (Phase1Result.mk 1 "/w/a.pdf" fpA "!" FileType.Unknown
        "/w/!__aaaaaaaaaaaa.pdf" Phase1Kind.processed)) := by
  decide

/-- First-seen environment where both rename attempts fail. -/
def envZ2 : FsEnv :=
  FsEnv.mk true (some fpA) true none true none true ""
    "INV-1" FileType.TaxInvoice [] 4 false false

/-- Witness for C5 (amended) at a concrete state: preferred and fallback
renames both fail, so the identity is forced to the sentinel and the file
stays at its original path. -/
theorem C5_rename_fallback_behavior_witness :
    ¬ phase1DocNo envZ2 = "!" ∧
    envZ2.renamePreferredOk = false ∧ envZ2.renameFallbackOk = false ∧
    processFirstSeen ws0 envZ2 1 "/w/a.pdf" fpA =
      some
        (WorkerState.mk [fpA] [(fpA, "/w/a.pdf")],
         ProcLog.mk [] [("/w/INV-1.pdf", false), ("/w/!__aaaaaaaaaaaa.pdf", false)] true,
         some (Phase1Result.mk 1 "/w/a.pdf" fpA "!" FileType.Unknown "/w/a.pdf"
           Phase1Kind.processed)) := by
  have h := C5_rename_fallback_behavior.2.1 ws0 envZ2 1 "/w/a.pdf" fpA
    "/w/INV-1.pdf" "/w/!__aaaaaaaaaaaa.pdf" (by decide) (by decide) (by decide)
    (by decide) (by decide)
  refine ⟨by decide, by decide, by decide, ?_⟩
  rw [h]
  decide

end AutoInvoice
